import Mathlib

/-!
Verification of the timetable construction and constraint-validation engine
of a timetable management system.

The development shallowly embeds the two generator implementations
(`AITimetableGenerator` from `aiTimetableGenerator.ts` and the plain
`TimetableGenerator` from `timetableGenerator.ts`) together with the
`ConstraintSolver` rule engine (`constraintSolver.ts`) and the data model
from `types/timetable.ts`.

Modelling conventions, chosen to match the JavaScript semantics of the
source:
* machine numbers that the source only ever uses as non-negative integers
  (hours, durations, counts, confidences) are `Nat`; the rule-engine score,
  which is decremented, is `Int`;
* `parseInt(s, 10)` is modelled by `parseIntJS`, returning `none` for `NaN`;
  a JavaScript comparison against `NaN` is always false, which is reflected
  in `doTimesOverlap` returning `false` whenever a component fails to parse;
* `Date.now()` is passed in explicitly as a `now : Nat` parameter; it is
  consulted by exactly the code location that calls it in the source
  (`createEmptyResult`);
* `CryptoJS.SHA256(JSON.stringify x).toString()` is modelled by `sha256` on
  a canonical string encoding of `x`: the claims under study only concern
  the determinism of the digest, never its numeric value, so any fixed pure
  injective-on-encodings stand-in is adequate;
* JavaScript array mutation (`push`, `splice`, `shift`) is modelled by pure
  list operations threaded through folds; object identity in the pools
  coincides with structural equality at every removal site (removed
  candidates are always the first structurally equal occurrence), so
  `List.erase` / `List.eraseIdx` are faithful.
-/

namespace Timetable

/-- Cohort year tag: one of the three student-year values. -/
inductive Year where
  | SE | TE | BE
  deriving DecidableEq, Repr

/-- Lab batch label within a cohort year. -/
inductive Batch where
  | A | B | C
  deriving DecidableEq, Repr

/-- Kind of a scheduled slot. -/
inductive SlotType where
  | theory | lab
  deriving DecidableEq, Repr

def Year.str : Year → String
  | .SE => "SE"
  | .TE => "TE"
  | .BE => "BE"

def Batch.str : Batch → String
  | .A => "A"
  | .B => "B"
  | .C => "C"

/-- The `faculty` field of a subject: either a plain name string or a
populated reference object (`{_id, name, email, department}`). -/
inductive FacultyField where
  | byName (name : String)
  | byRef (id name email department : String)
  deriving DecidableEq, Repr

/-- `Subject` from `types/timetable.ts`. -/
structure Subject where
  id : String
  name : String
  code : String
  year : Year
  theoryHours : Nat
  labHours : Nat
  faculty : FacultyField
  semester : Nat
  deriving DecidableEq, Repr

/-- `Faculty` from `types/timetable.ts` (fields the engine reads). -/
structure Faculty where
  id : String
  name : String
  email : String
  phone : String
  department : String
  subjects : List String
  maxHoursPerDay : Nat
  preferredSlots : List String
  deriving DecidableEq, Repr

/-- `Classroom` from `types/timetable.ts`. -/
structure Classroom where
  id : String
  name : String
  capacity : Nat
  timeSlot : String
  assignedYear : Year
  floor : Nat
  amenities : List String
  deriving DecidableEq, Repr

/-- `Lab` (room) from `types/timetable.ts`. -/
structure LabRoom where
  id : String
  name : String
  capacity : Nat
  type : String
  equipment : List String
  floor : Nat
  availableHours : List String
  compatibleSubjects : List String
  deriving DecidableEq, Repr

/-- `TimetableSlot` from `types/timetable.ts`, extended with the optional
`isFillIn` flag of `ExtendedTimetableSlot`. -/
structure Slot where
  id : String
  day : String
  time : String
  subject : String
  faculty : String
  room : String
  type : SlotType
  year : Year
  batch : Option Batch
  duration : Nat
  semester : Nat
  isFillIn : Bool := false
  deriving DecidableEq, Repr

inductive ConflictType where
  | error | warning | info | success
  deriving DecidableEq, Repr

inductive Severity where
  | low | medium | high
  deriving DecidableEq, Repr

/-- `Conflict` from `types/timetable.ts`. -/
structure Conflict where
  type : ConflictType
  message : String
  severity : Severity
  affectedEntities : List String
  deriving DecidableEq, Repr

/-- `TimetableConstraints` from `types/timetable.ts`.  The optional
`yearBatchType` map is modelled with optional per-year entries, matching the
double undefined-check `constraints.yearBatchType && constraints.yearBatchType[year]`
in `getBatchTypeForYear`. -/
inductive BatchTime where
  | Morning | Afternoon
  deriving DecidableEq, Repr

structure Constraints where
  maxHoursPerDay : Nat
  minBreakBetweenClasses : Nat
  maxConsecutiveHours : Nat
  prioritizeLabAfternoon : Bool
  allowBackToBackTheory : Bool
  facultyRestSlots : Nat
  yearBatchType : Option (Year → Option BatchTime)

/-- `getFacultyName`: `typeof subject.faculty === 'object' ? subject.faculty.name : subject.faculty`. -/
def getFacultyName (s : Subject) : String :=
  match s.faculty with
  | .byName n => n
  | .byRef _ n _ _ => n

/-! ## Time arithmetic (`doTimesOverlap`)

The source (identically in both generators) computes
`const [start1, end1] = time1.split('-').map(t => parseInt(t.replace(':', ''), 10))`
and returns `Math.max(start1, start2) < Math.min(end1, end2)`.
`String.prototype.replace` with a string pattern replaces only the first
occurrence of `':'`; `parseInt` skips leading whitespace, accepts an
optional sign and reads leading decimal digits, yielding `NaN` when no
digit is found.  Any `NaN` (including the `undefined` produced by
destructuring a one-element array) makes both comparisons false, so the
function returns `false`; the `try/catch` in the AI generator never fires
for string inputs because none of these operations throws. -/

/-- Split a character list at every occurrence of a separator (JS
`String.prototype.split` with a single-character separator: `""` splits to
`[""]`, and separators at the ends produce empty pieces). -/
def splitOnChar (sep : Char) : List Char → List (List Char)
  | [] => [[]]
  | c :: cs =>
      if c = sep then [] :: splitOnChar sep cs
      else
        match splitOnChar sep cs with
        | [] => [[c]]
        | piece :: pieces => (c :: piece) :: pieces

/-- Insert into a sorted list directly before the first element not strictly
smaller — the insertion step of a stable sort. -/
def insertSorted {α} (le : α → α → Bool) (x : α) : List α → List α
  | [] => [x]
  | y :: ys => if le x y then x :: y :: ys else y :: insertSorted le x ys

/-- Stable insertion sort.  For a total preorder `le` this produces the
same list as JavaScript's (stable) `Array.prototype.sort`: sorted by key
with equal keys in original order. -/
def stableSort {α} (le : α → α → Bool) : List α → List α
  | [] => []
  | x :: xs => insertSorted le x (stableSort le xs)

/-- Join strings with a separator (JS `Array.prototype.join`). -/
def joinSep (sep : String) : List String → String
  | [] => ""
  | [x] => x
  | x :: xs => x ++ sep ++ joinSep sep xs

def isPrefixOfChars : List Char → List Char → Bool
  | [], _ => true
  | _ :: _, [] => false
  | a :: as, b :: bs => a == b && isPrefixOfChars as bs

def strContainsAux (pat : List Char) : List Char → Bool
  | [] => isPrefixOfChars pat []
  | c :: cs => isPrefixOfChars pat (c :: cs) || strContainsAux pat cs

/-- Remove the first `':'` of a character list (JS `replace(':', '')`). -/
def removeFirstColon : List Char → List Char
  | [] => []
  | c :: cs => if c = ':' then cs else c :: removeFirstColon cs

/-- Digits-prefix value of a character list, `none` when it starts with a
non-digit (the `NaN` outcome of `parseInt`). -/
def parseDigits (cs : List Char) : Option Nat :=
  let ds := cs.takeWhile Char.isDigit
  if ds.isEmpty then none
  else some (ds.foldl (fun n c => n * 10 + (c.toNat - 48)) 0)

/-- `parseInt(s, 10)` on strings containing no `'-'` (the pieces produced by
splitting a time range on `'-'`): skip leading whitespace, allow a leading
`'+'`, read leading digits. -/
def parseIntJS (cs : List Char) : Option Nat :=
  let cs := cs.dropWhile Char.isWhitespace
  match cs with
  | '+' :: rest => parseDigits rest
  | _ => parseDigits cs

/-- Start and end of a time-range string as HHMM integers; `none` whenever
the JS code would produce a `NaN` in either position. -/
def parseRange (t : String) : Option (Nat × Nat) :=
  let parts := (splitOnChar '-' t.toList).map fun piece => parseIntJS (removeFirstColon piece)
  match parts.get? 0, parts.get? 1 with
  | some (some a), some (some b) => some (a, b)
  | _, _ => none

/-- `doTimesOverlap` from both generators.  On well-parsed ranges it tests
`max start1 start2 < min end1 end2`; any parse failure makes every `NaN`
comparison false, hence the result `false`. -/
def doTimesOverlap (time1 time2 : String) : Bool :=
  match parseRange time1, parseRange time2 with
  | some (s1, e1), some (s2, e2) => decide (max s1 s2 < min e1 e2)
  | _, _ => false

/-! ## Claim-level conflict predicates

`pairConflictB` renders the spec's central no-double-booking property for a
pair of accepted slots: same day and overlapping times together with shared
faculty, shared room, or shared cohort-year with compatible (equal or
absent) batches. -/

def pairConflictB (a b : Slot) : Bool :=
  a.day == b.day && doTimesOverlap a.time b.time &&
    (a.faculty == b.faculty || a.room == b.room ||
      (a.year == b.year && (a.batch.isNone || b.batch.isNone || a.batch == b.batch)))

/-- A slot list is conflict-free when no earlier/later pair conflicts. -/
def conflictFreeB : List Slot → Bool
  | [] => true
  | s :: rest => rest.all (fun t => !pairConflictB s t) && conflictFreeB rest

/-- Substring test (JS `String.prototype.includes`). -/
def strContains (s pat : String) : Bool :=
  strContainsAux pat.toList s.toList

/-- `parseInt(slot.time.split(':')[0])` as used by the afternoon-lab and
preferred-slot rules: the leading piece of the time string before the first
`':'`, read as an integer (no colon removal here). -/
def parseHourJS (time : String) : Option Nat :=
  parseIntJS ((splitOnChar ':' time.toList).headD [])

namespace Solver

/-! ## `ConstraintSolver` (`constraintSolver.ts`)

The default rule set and `validateTimetable`, embedded rule by rule.  Each
rule's `validate` closure becomes a named Lean function; the registry
`defaultRules` lists them in the `initializeDefaultRules` push order. -/

structure Ctx where
  subjects : List Subject
  faculty : List Faculty

inductive RuleKind where
  | hard | soft
  deriving DecidableEq, Repr

structure Rule where
  id : String
  name : String
  kind : RuleKind
  weight : Int
  validate : Slot → List Slot → Ctx → Bool
  getMessage : Slot → String

/-- Hard rule `no-faculty-conflict`: no other accepted slot shares faculty,
day and the identical time string. -/
def noFacultyConflictValidate (slot : Slot) (allSlots : List Slot) (_ : Ctx) : Bool :=
  !(allSlots.any fun existing =>
    existing.faculty == slot.faculty && existing.day == slot.day &&
      existing.time == slot.time && existing.id != slot.id)

/-- Hard rule `no-room-conflict`. -/
def noRoomConflictValidate (slot : Slot) (allSlots : List Slot) (_ : Ctx) : Bool :=
  !(allSlots.any fun existing =>
    existing.room == slot.room && existing.day == slot.day &&
      existing.time == slot.time && existing.id != slot.id)

/-- Hard rule `no-student-conflict`: same year and same (possibly absent)
batch; `undefined === undefined` holds in JS, so two batchless slots match. -/
def noStudentConflictValidate (slot : Slot) (allSlots : List Slot) (_ : Ctx) : Bool :=
  !(allSlots.any fun existing =>
    existing.year == slot.year && existing.batch == slot.batch &&
      existing.day == slot.day && existing.time == slot.time && existing.id != slot.id)

/-- Soft rule `faculty-max-hours`. -/
def facultyMaxHoursValidate (slot : Slot) (allSlots : List Slot) (ctx : Ctx) : Bool :=
  match ctx.faculty.find? (fun f => f.name == slot.faculty) with
  | none => true
  | some faculty =>
      let dailyHours := ((allSlots.filter fun s =>
        s.faculty == slot.faculty && s.day == slot.day).map (·.duration)).sum
      decide (dailyHours ≤ faculty.maxHoursPerDay)

/-- The two lab time bands hard-coded by the `no-back-to-back-labs` rule. -/
def backToBackLabTimeSlots : List String := ["1:15-3:15", "3:15-5:15"]

/-- Soft rule `no-back-to-back-labs`: the immediately adjacent lab band for
the same faculty and day must not hold another lab.  Out-of-range JS array
indexing yields `undefined`, which `filter(Boolean)` drops. -/
def noBackToBackLabsValidate (slot : Slot) (allSlots : List Slot) (_ : Ctx) : Bool :=
  if slot.type != SlotType.lab then true
  else
    match List.findIdx? (fun t => t == slot.time) backToBackLabTimeSlots with
    | none => true
    | some currentIndex =>
        let adjacentTimes :=
          ((if currentIndex = 0 then none else backToBackLabTimeSlots.get? (currentIndex - 1)) ::
            [backToBackLabTimeSlots.get? (currentIndex + 1)]).filterMap id
        !(allSlots.any fun existing =>
          existing.faculty == slot.faculty && existing.day == slot.day &&
            existing.type == SlotType.lab && adjacentTimes.contains existing.time &&
            existing.id != slot.id)

/-- Soft rule `lab-afternoon-preference`: `parseInt(slot.time.split(':')[0]) >= 13`;
a `NaN` hour compares false. -/
def labAfternoonValidate (slot : Slot) (_ : List Slot) (_ : Ctx) : Bool :=
  if slot.type != SlotType.lab then true
  else
    match parseHourJS slot.time with
    | some hour => decide (13 ≤ hour)
    | none => false

/-- Soft rule `faculty-preferred-slots`. -/
def facultyPreferredValidate (slot : Slot) (_ : List Slot) (ctx : Ctx) : Bool :=
  match ctx.faculty.find? (fun f => f.name == slot.faculty) with
  | none => true
  | some faculty =>
      if faculty.preferredSlots.isEmpty then true
      else
        faculty.preferredSlots.any fun pref =>
          match parseHourJS slot.time with
          | none => false
          | some hour =>
              (strContains pref "Morning" && decide (8 ≤ hour) && decide (hour < 12)) ||
              (strContains pref "Afternoon" && decide (12 ≤ hour) && decide (hour < 17)) ||
              (strContains pref "Evening" && decide (17 ≤ hour))

def noFacultyConflictRule : Rule :=
  { id := "no-faculty-conflict", name := "No Faculty Time Conflict",
    kind := .hard, weight := 100, validate := noFacultyConflictValidate,
    getMessage := fun slot =>
      "Faculty " ++ slot.faculty ++ " has conflicting assignments at " ++
        slot.time ++ " on " ++ slot.day }

def noRoomConflictRule : Rule :=
  { id := "no-room-conflict", name := "No Room Double Booking",
    kind := .hard, weight := 100, validate := noRoomConflictValidate,
    getMessage := fun slot =>
      "Room " ++ slot.room ++ " is double-booked at " ++ slot.time ++ " on " ++ slot.day }

def noStudentConflictRule : Rule :=
  { id := "no-student-conflict", name := "No Student Time Conflict",
    kind := .hard, weight := 100, validate := noStudentConflictValidate,
    getMessage := fun slot =>
      "Students have conflicting classes at " ++ slot.time ++ " on " ++ slot.day }

def facultyMaxHoursRule : Rule :=
  { id := "faculty-max-hours", name := "Faculty Daily Hour Limit",
    kind := .soft, weight := 80, validate := facultyMaxHoursValidate,
    getMessage := fun slot =>
      "Faculty " ++ slot.faculty ++ " exceeds preferred daily hours on " ++ slot.day }

def noBackToBackLabsRule : Rule :=
  { id := "no-back-to-back-labs", name := "No Consecutive Labs for Faculty",
    kind := .soft, weight := 70, validate := noBackToBackLabsValidate,
    getMessage := fun slot =>
      "Faculty " ++ slot.faculty ++ " has back-to-back lab sessions on " ++ slot.day }

def labAfternoonRule : Rule :=
  { id := "lab-afternoon-preference", name := "Prefer Labs in Afternoon",
    kind := .soft, weight := 60, validate := labAfternoonValidate,
    getMessage := fun slot =>
      "Lab session " ++ slot.subject ++ " scheduled in morning hours" }

def facultyPreferredRule : Rule :=
  { id := "faculty-preferred-slots", name := "Faculty Slot Preferences",
    kind := .soft, weight := 50, validate := facultyPreferredValidate,
    getMessage := fun slot =>
      "Faculty " ++ slot.faculty ++ " assigned outside preferred time slots" }

/-- The seven default rules, in registration order. -/
def defaultRules : List Rule :=
  [noFacultyConflictRule, noRoomConflictRule, noStudentConflictRule, facultyMaxHoursRule,
   noBackToBackLabsRule, labAfternoonRule, facultyPreferredRule]

structure ValidationOutcome where
  isValid : Bool
  conflicts : List Conflict
  score : Int
  deriving Repr

structure VAcc where
  conflicts : List Conflict
  score : Int
  hardConstraintViolations : Nat
  deriving Repr

/-- Loop body of `validateTimetable`: apply one rule to one slot. -/
def applyRule (ctx : Ctx) (slots : List Slot) (acc : VAcc) (slot : Slot) (rule : Rule) : VAcc :=
  let ok := rule.validate slot slots ctx
  if ok then
    if rule.kind = .soft then { acc with score := acc.score + rule.weight } else acc
  else
    let conflict : Conflict :=
      { type := if rule.kind = .hard then .error else .warning,
        message := rule.getMessage slot,
        severity := if rule.kind = .hard then .high else .medium,
        affectedEntities := [slot.faculty, slot.subject, slot.room] }
    if rule.kind = .hard then
      { acc with conflicts := acc.conflicts ++ [conflict],
                 hardConstraintViolations := acc.hardConstraintViolations + 1 }
    else
      { acc with conflicts := acc.conflicts ++ [conflict], score := acc.score - rule.weight }

/-- `validateTimetable(slots, context)`: every slot against every rule;
`isValid` iff no hard-rule violation was counted. -/
def validateTimetable (slots : List Slot) (ctx : Ctx) : ValidationOutcome :=
  let acc := slots.foldl
    (fun acc slot => defaultRules.foldl (fun acc rule => applyRule ctx slots acc slot rule) acc)
    { conflicts := [], score := 0, hardConstraintViolations := 0 }
  { isValid := acc.hardConstraintViolations = 0,
    conflicts := acc.conflicts,
    score := acc.score }

end Solver

/-! ## Demand pools

`createLecturePool` and `createLabPool` are textually identical in the two
generators (`aiTimetableGenerator.ts` operates on a subject-list argument,
`timetableGenerator.ts` on `this.subjects`); they are shared here.
`Math.ceil(labHours / 2)` on a non-negative integer is `(labHours + 1) / 2`
in `Nat` arithmetic. -/

structure UnscheduledLecture where
  subject : Subject
  year : Year
  deriving DecidableEq, Repr

structure UnscheduledLab where
  subject : Subject
  year : Year
  batch : Batch
  deriving DecidableEq, Repr

/-- `subjects.flatMap(s => Array(s.theoryHours).fill({subject: s, year: s.year}))`. -/
def createLecturePool (subjects : List Subject) : List UnscheduledLecture :=
  subjects.flatMap fun s => List.replicate s.theoryHours { subject := s, year := s.year }

/-- The lab demand units one subject contributes: `ceil(labHours / 2)` blocks,
three batch units per block. -/
def labUnitsFor (s : Subject) : List UnscheduledLab :=
  (List.replicate ((s.labHours + 1) / 2) 0).flatMap fun _ =>
    [Batch.A, Batch.B, Batch.C].map fun batch => { subject := s, year := s.year, batch := batch }

/-- `subjects.flatMap(s => Array(ceil(labHours/2)).fill(0).flatMap(() => ['A','B','C'].map(batch => ...)))`. -/
def createLabPool (subjects : List Subject) : List UnscheduledLab :=
  subjects.flatMap labUnitsFor

/-- `subjects.filter(s => s.year === targetYear && s.semester === targetSemester)`. -/
def relevantSubjects (subjects : List Subject) (targetYear : Year) (targetSemester : Nat) :
    List Subject :=
  subjects.filter fun s => s.year == targetYear && s.semester == targetSemester

namespace AIGen

/-! ## `AITimetableGenerator` (`aiTimetableGenerator.ts`)

Constants and read-only helper predicates over the accepted-slot list. -/

def DAYS : List String :=
  ["Monday", "Tuesday", "Wednesday", "Thursday", "Friday", "Saturday"]

def MORNING_THEORY_SLOTS : List String :=
  ["8:10-9:10", "9:10-10:10", "10:25-11:20", "11:20-12:15", "1:05-2:00", "2:00-2:55"]

def AFTERNOON_THEORY_SLOTS : List String :=
  ["10:25-11:20", "11:20-12:15", "1:05-2:00", "2:00-2:55", "3:05-4:00", "4:00-4:55"]

def MORNING_LAB_SLOTS : List String :=
  ["8:10-10:10", "10:25-12:15", "1:05-2:55"]

def AFTERNOON_LAB_SLOTS : List String :=
  ["10:25-12:15", "1:05-2:55", "3:05-4:55"]

def ALL_THEORY_SLOTS : List String :=
  ["8:10-9:10", "9:10-10:10", "10:25-11:20", "11:20-12:15", "1:05-2:00", "2:00-2:55",
   "3:05-4:00", "4:00-4:55"]

/-- `isYearOccupied`: some batchless (theory) slot of the year overlaps. -/
def isYearOccupied (slots : List Slot) (year : Year) (day time : String) : Bool :=
  slots.any fun s =>
    s.year == year && s.batch.isNone && s.day == day && doTimesOverlap s.time time

def isRoomOccupied (slots : List Slot) (roomName day time : String) : Bool :=
  slots.any fun s => s.room == roomName && s.day == day && doTimesOverlap s.time time

def isFacultyAvailable (slots : List Slot) (name day time : String) : Bool :=
  !(slots.any fun s => s.faculty == name && s.day == day && doTimesOverlap s.time time)

def isBatchAvailable (slots : List Slot) (year : Year) (batch : Option Batch)
    (day time : String) : Bool :=
  !(slots.any fun s =>
    s.year == year && (batch.isNone || s.batch.isNone || s.batch == batch) &&
      s.day == day && doTimesOverlap s.time time)

def isSlotAvailable (slots : List Slot) (day time room : String) : Bool :=
  !(slots.any fun slot => slot.day == day && doTimesOverlap slot.time time && slot.room == room)

/-- Names of rooms booked at an overlapping time that day. -/
def bookedRoomNames (slots : List Slot) (day time : String) : List String :=
  (slots.filter fun s => s.day == day && doTimesOverlap s.time time).map (·.room)

/-- The `'lab'` branch of `getAvailableRooms` (the only branch the source
ever invokes in this class). -/
def getAvailableLabRooms (labs : List LabRoom) (slots : List Slot) (day time : String) :
    List LabRoom :=
  labs.filter fun room => !((bookedRoomNames slots day time).contains room.name)

def getBatchTypeForYear (constraints : Constraints) (year : Year) : BatchTime :=
  match constraints.yearBatchType with
  | some m =>
      match m year with
      | some bt => bt
      | none => if year = Year.BE then .Afternoon else .Morning
  | none => if year = Year.BE then .Afternoon else .Morning

def getLabSlotsForYear (constraints : Constraints) (year : Year) : List String :=
  if getBatchTypeForYear constraints year = .Morning then MORNING_LAB_SLOTS
  else AFTERNOON_LAB_SLOTS

/-- `getSlotDuration`: lab bands last 2 hours, everything else 1. -/
def getSlotDuration (time : String) : Nat :=
  if MORNING_LAB_SLOTS.contains time || AFTERNOON_LAB_SLOTS.contains time then 2 else 1

def hadConsecutiveLabForBatch (constraints : Constraints) (slots : List Slot) (year : Year)
    (batch : Batch) (day time : String) : Bool :=
  let labSlots := getLabSlotsForYear constraints year
  match List.findIdx? (fun t => t == time) labSlots with
  | none => false
  | some 0 => false
  | some (i + 1) =>
      match labSlots.get? i with
      | none => false
      | some previousTime =>
          slots.any fun s =>
            s.type == SlotType.lab && s.year == year && s.batch == some batch &&
              s.day == day && s.time == previousTime

def hadConsecutiveLabForFaculty (slots : List Slot) (name day time : String) : Bool :=
  let allLabSlots := MORNING_LAB_SLOTS ++ AFTERNOON_LAB_SLOTS
  match List.findIdx? (fun t => t == time) allLabSlots with
  | none => false
  | some 0 => false
  | some (i + 1) =>
      match allLabSlots.get? i with
      | none => false
      | some previousTime =>
          slots.any fun s =>
            s.type == SlotType.lab && s.faculty == name && s.day == day &&
              s.time == previousTime

def hasLabAlreadyOccurredTodayForBatch (slots : List Slot) (year : Year) (batch : Batch)
    (day : String) : Bool :=
  slots.any fun s =>
    s.type == SlotType.lab && s.day == day && s.year == year && s.batch == some batch

/-- Index of a theory time band in `ALL_THEORY_SLOTS`, with the JS `indexOf`
convention of `-1` for a missing entry. -/
def theoryTimeIdx (time : String) : Int :=
  match List.findIdx? (fun t => t == time) ALL_THEORY_SLOTS with
  | some i => (i : Int)
  | none => -1

/-- Adjacent-pair walk of `hasConsecutiveSession`: some slot is immediately
followed (in `ALL_THEORY_SLOTS` order) by the next listed slot. -/
def hasAdjacentIdxPair : List Slot → Bool
  | [] => false
  | [_] => false
  | a :: b :: rest =>
      (theoryTimeIdx a.time != -1 && theoryTimeIdx b.time == theoryTimeIdx a.time + 1) ||
        hasAdjacentIdxPair (b :: rest)

/-- `hasConsecutiveSession`: adding `slot` would place two theory sessions of
the same subject in adjacent theory bands on the same day.  The JS
`Array.prototype.sort` with the `indexOf` difference comparator is a stable
sort on the band index, matched by `stableSort`. -/
def hasConsecutiveSession (slots : List Slot) (slot : Slot) : Bool :=
  if slot.type != SlotType.theory then false
  else
    let potentialSlots := slots ++ [slot]
    let sameDaySlots := (potentialSlots.filter fun s =>
      s.day == slot.day && s.subject == slot.subject && s.year == slot.year &&
        s.type == SlotType.theory)
    let sameDaySlots := stableSort
      (fun a b => decide (theoryTimeIdx a.time ≤ theoryTimeIdx b.time)) sameDaySlots
    hasAdjacentIdxPair sameDaySlots

/-! ### `validateSlot`

The acceptance-time gate: basic double-booking conflicts, the consecutive
rule, the weekly theory cap (`subjectDef?.theoryHours || 3`, so a missing
subject *or* a declared value of `0` falls back to the default cap `3`), and
the once-per-week lab cap. -/

/-- The `basicConflict` scan of `validateSlot`. -/
def basicConflictB (generated : List Slot) (slot : Slot) : Bool :=
  generated.any fun existing =>
    (existing.faculty == slot.faculty && existing.day == slot.day &&
      doTimesOverlap existing.time slot.time) ||
    (existing.room == slot.room && existing.day == slot.day &&
      doTimesOverlap existing.time slot.time) ||
    (existing.year == slot.year && existing.day == slot.day &&
      doTimesOverlap existing.time slot.time &&
      (slot.batch.isNone || existing.batch.isNone || existing.batch == slot.batch))

/-- `weeklyTheoryCount`: accepted theory slots of this subject and year. -/
def theoryCountFor (generated : List Slot) (subjectName : String) (year : Year) : Nat :=
  (generated.filter fun s =>
    s.type == SlotType.theory && s.subject == subjectName && s.year == year).length

/-- `maxAllowed`: `subjectDef?.theoryHours || 3` — JS `||` treats `0` and
`undefined` alike, so both fall back to the default `3`. -/
def maxAllowedFor (subjects : List Subject) (subjectName : String) (year : Year) : Nat :=
  match subjects.find? (fun s => s.name == subjectName && s.year == year) with
  | some subjectDef => if subjectDef.theoryHours = 0 then 3 else subjectDef.theoryHours
  | none => 3

/-- `weeklyLabCount`: accepted lab slots of this subject, year and batch. -/
def labCountFor (generated : List Slot) (slot : Slot) : Nat :=
  (generated.filter fun s =>
    s.type == SlotType.lab && s.subject == slot.subject && s.year == slot.year &&
      s.batch == slot.batch).length

/-- `validateSlot` from `aiTimetableGenerator.ts`. -/
def validateSlot (subjects : List Subject) (generated : List Slot) (slot : Slot) : Bool :=
  if basicConflictB generated slot then false
  else if slot.type == SlotType.theory && hasConsecutiveSession generated slot then false
  else if slot.type == SlotType.theory &&
      decide (maxAllowedFor subjects slot.subject slot.year ≤
        theoryCountFor generated slot.subject slot.year) then false
  else if slot.type == SlotType.lab && decide (1 ≤ labCountFor generated slot) then false
  else true

end AIGen

/-- One advisory slot recommendation (`recommendedSlots` entries of
`ConstraintAnalysisResult` in `geminiService.ts`). -/
structure Recommendation where
  subject : String
  faculty : String
  day : String
  time : String
  room : String
  type : SlotType
  batch : Option Batch
  confidence : Nat
  reasoning : String
  deriving DecidableEq, Repr

/-- `ConstraintAnalysisResult` from `geminiService.ts`. -/
structure AnalysisResult where
  isValid : Bool
  conflicts : List Conflict
  optimizationSuggestions : List String
  constraintScore : Nat
  recommendedSlots : List Recommendation
  deriving Repr

/-- Plain constructor for conflict records, easing list literals. -/
def mkConflict (t : ConflictType) (msg : String) (sev : Severity)
    (ents : List String) : Conflict :=
  { type := t, message := msg, severity := sev, affectedEntities := ents }

/-- `getFallbackAnalysis` from `geminiService.ts`: the pure analysis the
advisory collaborator returns whenever the external model call fails or its
response cannot be parsed — i.e. the advisory-absent behavior. -/
def analyzeConstraintsFallback (subjects : List Subject) (classrooms : List Classroom)
    (targetYear : Year) (targetSemester : Nat) : AnalysisResult :=
  let relevant := relevantSubjects subjects targetYear targetSemester
  let yearClassrooms := classrooms.filter fun c => c.assignedYear == targetYear
  let conflicts :=
    (if relevant.isEmpty then
      [mkConflict .error
        ("No subjects found for " ++ targetYear.str ++ " Semester " ++ toString targetSemester)
        .high [targetYear.str ++ "-" ++ toString targetSemester]]
    else []) ++
    (if yearClassrooms.isEmpty then
      [mkConflict .error ("No classrooms assigned to " ++ targetYear.str) .high [targetYear.str]]
    else [])
  { isValid := conflicts.isEmpty,
    conflicts := conflicts,
    optimizationSuggestions :=
      ["Ensure all subjects have assigned faculty",
       "Balance faculty workload across days",
       "Optimize lab utilization in afternoon slots"],
    constraintScore := if conflicts.isEmpty then 85 else 30,
    recommendedSlots := [] }

/-- The read-only entity catalog handed to either generator's constructor. -/
structure GenInput where
  subjects : List Subject
  faculty : List Faculty
  classrooms : List Classroom
  labs : List LabRoom
  constraints : Constraints

/-- Mutable generator state: `this.generatedSlots` and `this.conflicts`. -/
structure GenState where
  slots : List Slot
  conflicts : List Conflict
  deriving Repr

def emptyState : GenState := { slots := [], conflicts := [] }

/-- Insertion-ordered key counting (a JS object used as a counter map). -/
def bumpKey : List (String × Nat) → String → List (String × Nat)
  | [], k => [(k, 1)]
  | (k₀, n) :: rest, k =>
      if k₀ == k then (k₀, n + 1) :: rest else (k₀, n) :: bumpKey rest k

namespace Plain

/-! ## `TimetableGenerator` (`timetableGenerator.ts`)

The plain generator: five working days, one fixed theory band list, two lab
bands, and scheduling passes without the `validateSlot` acceptance gate. -/

def DAYS : List String := ["Monday", "Tuesday", "Wednesday", "Thursday", "Friday"]

def THEORY_SLOTS : List String :=
  ["8:00-9:00", "9:00-10:00", "10:15-11:15", "11:15-12:15",
   "1:15-2:15", "2:15-3:15", "3:15-4:15", "4:15-5:15"]

def LAB_SLOTS : List String := ["1:15-3:15", "3:15-5:15"]

def isFacultyAvailable (slots : List Slot) (name day time : String) : Bool :=
  !(slots.any fun s => s.faculty == name && s.day == day && doTimesOverlap s.time time)

def isBatchAvailable (slots : List Slot) (year : Year) (batch : Option Batch)
    (day time : String) : Bool :=
  !(slots.any fun s =>
    s.year == year && (batch.isNone || s.batch.isNone || s.batch == batch) &&
      s.day == day && doTimesOverlap s.time time)

/-- The `'lab'` branch of this class's `getAvailableRooms`. -/
def getAvailableLabRooms (labs : List LabRoom) (slots : List Slot) (day time : String) :
    List LabRoom :=
  let bookedRooms := (slots.filter fun s => s.day == day && doTimesOverlap s.time time).map (·.room)
  labs.filter fun room => !(bookedRooms.contains room.name)

def hadConsecutiveLabForBatch (slots : List Slot) (year : Year) (batch : Batch)
    (day time : String) : Bool :=
  time == "3:15-5:15" &&
    slots.any fun s =>
      s.type == SlotType.lab && s.year == year && s.batch == some batch &&
        s.day == day && s.time == "1:15-3:15"

def hadConsecutiveLabForFaculty (slots : List Slot) (name day time : String) : Bool :=
  time == "3:15-5:15" &&
    slots.any fun s =>
      s.type == SlotType.lab && s.faculty == name && s.day == day && s.time == "1:15-3:15"

def wasPreviousSlotSameSubject (slots : List Slot) (subject : Subject) (year : Year)
    (day time : String) : Bool :=
  match List.findIdx? (fun t => t == time) THEORY_SLOTS with
  | none => false
  | some 0 => false
  | some (i + 1) =>
      if time == "1:15-2:15" then false
      else
        match THEORY_SLOTS.get? i with
        | none => false
        | some previousTime =>
            slots.any fun s =>
              s.year == year && s.day == day && s.subject == subject.name &&
                s.time == previousTime

def hasLectureAlreadyOccurredToday (slots : List Slot) (subject : Subject) (year : Year)
    (day : String) : Bool :=
  slots.any fun s =>
    s.type == SlotType.theory && s.day == day && s.year == year && s.subject == subject.name

/-- Candidate-consumption loop of `scheduleLabs` at one `(day, time)` cell:
rooms are handed out front to back (`shift()`), the loop `break`s when the
room list is exhausted, and — crucially — the candidate list was filtered
once before the loop, so later candidates are *not* re-checked against the
slots accepted earlier in the same cell. -/
def scheduleLabsCell (day time : String)
    (acc : GenState × List UnscheduledLab × List LabRoom) (candidate : UnscheduledLab) :
    GenState × List UnscheduledLab × List LabRoom :=
  let (st, pool, rooms) := acc
  match rooms with
  | [] => (st, pool, [])
  | labRoom :: restRooms =>
      let slot : Slot :=
        { id := candidate.year.str ++ "-" ++ candidate.batch.str ++ "-" ++
            candidate.subject.code ++ "-" ++ day ++ "-" ++ time,
          day := day, time := time,
          subject := candidate.subject.name ++ " Lab",
          faculty := getFacultyName candidate.subject,
          room := labRoom.name, type := .lab,
          year := candidate.year, batch := some candidate.batch,
          duration := 2, semester := candidate.subject.semester }
      ({ st with slots := st.slots ++ [slot] }, pool.erase candidate, restRooms)

/-- `scheduleLabs` body for one `(day, time)` cell. -/
def scheduleLabsSlot (inp : GenInput) (day : String) (acc : GenState × List UnscheduledLab)
    (time : String) : GenState × List UnscheduledLab :=
  let (st, pool) := acc
  let availableLabRooms := getAvailableLabRooms inp.labs st.slots day time
  let candidates := pool.filter fun lab =>
    isBatchAvailable st.slots lab.year (some lab.batch) day time &&
    isFacultyAvailable st.slots (getFacultyName lab.subject) day time &&
    !(hadConsecutiveLabForFaculty st.slots (getFacultyName lab.subject) day time) &&
    !(hadConsecutiveLabForBatch st.slots lab.year lab.batch day time)
  let (st, pool, _) := candidates.foldl (scheduleLabsCell day time) (st, pool, availableLabRooms)
  (st, pool)

def scheduleLabs (inp : GenInput) (st : GenState) (pool : List UnscheduledLab) :
    GenState × List UnscheduledLab :=
  DAYS.foldl (fun acc day => LAB_SLOTS.foldl (scheduleLabsSlot inp day) acc) (st, pool)

/-- `scheduleLectures` body for one `(day, time, year)` cell. -/
def scheduleLecturesCell (inp : GenInput) (day time : String)
    (acc : GenState × List UnscheduledLecture) (year : Year) :
    GenState × List UnscheduledLecture :=
  let (st, pool) := acc
  if !(isBatchAvailable st.slots year none day time) then (st, pool)
  else
    match inp.classrooms.find? (fun c => c.assignedYear == year) with
    | none => (st, pool)
    | some assignedClassroom =>
        match List.findIdx? (fun lec =>
          lec.year == year &&
          isFacultyAvailable st.slots (getFacultyName lec.subject) day time &&
          !(wasPreviousSlotSameSubject st.slots lec.subject year day time) &&
          !(hasLectureAlreadyOccurredToday st.slots lec.subject year day)) pool with
        | none => (st, pool)
        | some bestFitIndex =>
            match pool.get? bestFitIndex with
            | none => (st, pool)
            | some lectureToSchedule =>
                let slot : Slot :=
                  { id := year.str ++ "-" ++ lectureToSchedule.subject.code ++ "-" ++
                      day ++ "-" ++ time,
                    day := day, time := time,
                    subject := lectureToSchedule.subject.name,
                    faculty := getFacultyName lectureToSchedule.subject,
                    room := assignedClassroom.name, type := .theory,
                    year := year, batch := none, duration := 1,
                    semester := lectureToSchedule.subject.semester }
                ({ st with slots := st.slots ++ [slot] }, pool.eraseIdx bestFitIndex)

def scheduleLectures (inp : GenInput) (st : GenState) (pool : List UnscheduledLecture) :
    GenState × List UnscheduledLecture :=
  DAYS.foldl
    (fun acc day => THEORY_SLOTS.foldl
      (fun acc time => [Year.SE, Year.TE, Year.BE].foldl (scheduleLecturesCell inp day time) acc)
      acc)
    (st, pool)

/-- `reportUnscheduled` from `timetableGenerator.ts`. -/
def reportUnscheduled (st : GenState) (lectures : List UnscheduledLecture)
    (labs : List UnscheduledLab) : GenState :=
  let labConflicts : List Conflict := labs.map fun lab =>
    { type := .error,
      message := "Could not schedule lab for " ++ lab.subject.name ++ " (" ++
        lab.year.str ++ "-" ++ lab.batch.str ++ "). Not enough slots/resources.",
      severity := .high,
      affectedEntities := [lab.subject.name, lab.year.str ++ "-" ++ lab.batch.str] }
  let unscheduledCounts :=
    (lectures.map fun lec => lec.subject.name ++ " (" ++ lec.year.str ++ ")").foldl bumpKey []
  let lectureConflicts : List Conflict := unscheduledCounts.map fun kv =>
    { type := .warning,
      message := "Could not schedule " ++ toString kv.2 ++ " lecture(s) for " ++ kv.1 ++ ".",
      severity := .medium,
      affectedEntities := [kv.1] }
  { st with conflicts := st.conflicts ++ labConflicts ++ lectureConflicts }

/-- `generateTimetable` of the plain generator: build both pools over the
whole catalog, labs pass, lectures pass, report leftovers. -/
def generateTimetable (inp : GenInput) : GenState :=
  let unscheduledLectures := createLecturePool inp.subjects
  let unscheduledLabs := createLabPool inp.subjects
  let (st, unscheduledLabs) := scheduleLabs inp emptyState unscheduledLabs
  let (st, unscheduledLectures) := scheduleLectures inp st unscheduledLectures
  reportUnscheduled st unscheduledLectures unscheduledLabs

end Plain

namespace AIGen

/-! ## AI generator scheduling pipeline

The phases of `generateTimetable` in `aiTimetableGenerator.ts`.  The
external advisory outcome (`geminiAnalyzer.analyzeConstraints`) is passed in
as an `Except Unit AnalysisResult` parameter: `.ok` is a resolved analysis
(including the analyzer-internal fallback analysis used when the model call
fails), `.error` is a rejection of the advisory step, which the top-level
`try/catch` turns into `fallbackGeneration`.  `Date.now()` is the explicit
`now` parameter. -/

inductive Mode where
  | ai | fallback
  deriving DecidableEq, Repr

/-- Recommendation lookup of `sortPoolByAIInsights`: subject name, slot type
and (for labs) batch must match. -/
def recommendationFor (analysis : AnalysisResult) (ty : SlotType) (name : String)
    (batch : Option Batch) : Option Recommendation :=
  analysis.recommendedSlots.find? fun r =>
    r.subject == name && r.type == ty && (ty == SlotType.theory || r.batch == batch)

def lectureConfidence (analysis : AnalysisResult) (lec : UnscheduledLecture) : Nat :=
  match recommendationFor analysis .theory lec.subject.name none with
  | some r => r.confidence
  | none => 0

def labConfidence (analysis : AnalysisResult) (lab : UnscheduledLab) : Nat :=
  match recommendationFor analysis .lab lab.subject.name (some lab.batch) with
  | some r => r.confidence
  | none => 0

/-- `sortPoolByAIInsights` on the lecture pool: identity without an analysis
result, otherwise a stable sort by descending confidence (the JS
`bConfidence - aConfidence` comparator under V8's stable sort). -/
def sortLecturePool (analysis : Option AnalysisResult) (pool : List UnscheduledLecture) :
    List UnscheduledLecture :=
  match analysis with
  | none => pool
  | some a => stableSort (fun x y => decide (lectureConfidence a y ≤ lectureConfidence a x)) pool

def sortLabPool (analysis : Option AnalysisResult) (pool : List UnscheduledLab) :
    List UnscheduledLab :=
  match analysis with
  | none => pool
  | some a => stableSort (fun x y => decide (labConfidence a y ≤ labConfidence a x)) pool

/-- `getBatchForLab`: first batch label not yet used by an accepted lab slot
whose display name contains the subject's name; falls back to `A`. -/
def getBatchForLab (slots : List Slot) (subject : Subject) (year : Year) : Batch :=
  let existingBatches := ((slots.filter fun s =>
    strContains s.subject subject.name && s.type == SlotType.lab && s.year == year).map
      (·.batch)).filterMap id
  match [Batch.A, Batch.B, Batch.C].find? (fun b => !(existingBatches.contains b)) with
  | some availableBatch => availableBatch
  | none => .A

/-- `createSlotFromRecommendation`.  The slot's *kind* is inferred from the
time band, while its batch comes from the recommendation's declared type; a
lab-band time with no batch interpolates JS `undefined` into the id. -/
def createSlotFromRecommendation (slots : List Slot) (recommendation : Recommendation)
    (subject : Subject) (targetYear : Year) (targetSemester : Nat) : Slot :=
  let facultyName := getFacultyName subject
  let duration := getSlotDuration recommendation.time
  let batch : Option Batch :=
    if recommendation.type == SlotType.lab then
      match recommendation.batch with
      | some b => some b
      | none => some (getBatchForLab slots subject targetYear)
    else none
  let type :=
    if MORNING_LAB_SLOTS.contains recommendation.time ||
        AFTERNOON_LAB_SLOTS.contains recommendation.time then SlotType.lab
    else SlotType.theory
  let idBatchPart :=
    if type == SlotType.lab then
      match batch with
      | some b => b.str
      | none => "undefined"
    else ""
  { id := targetYear.str ++ "-" ++ idBatchPart ++ "-" ++ subject.code ++ "-" ++
      recommendation.day ++ "-" ++ recommendation.time,
    day := recommendation.day, time := recommendation.time,
    subject := if type == SlotType.lab then subject.name ++ " Lab" else subject.name,
    faculty := facultyName, room := recommendation.room, type := type,
    year := targetYear, batch := batch, duration := duration, semester := targetSemester }

/-- Phase 0 step: one high-confidence recommendation attempted as an
ordinary placement through `validateSlot`. -/
def applyRecommendation (inp : GenInput) (relevant : List Subject) (targetYear : Year)
    (targetSemester : Nat) (st : GenState) (recommendation : Recommendation) : GenState :=
  if 70 ≤ recommendation.confidence then
    match relevant.find? (fun s => s.name == recommendation.subject) with
    | some subject =>
        if isSlotAvailable st.slots recommendation.day recommendation.time recommendation.room then
          let slot := createSlotFromRecommendation st.slots recommendation subject targetYear
            targetSemester
          if validateSlot inp.subjects st.slots slot then
            { st with slots := st.slots ++ [slot] }
          else st
        else st
    | none => st
  else st

/-- Accumulator of the concurrent-sweep candidate loop in
`scheduleLabsConcurrently`. -/
structure LabSweepAcc where
  st : GenState
  pool : List UnscheduledLab
  scheduledInThisSlot : Nat
  facultyScheduledThisSlot : List String
  batchesScheduledThisSlot : List (Year × Batch)

/-- One candidate of the concurrent sweep: skipped once rooms are exhausted
(the `break`), skipped when its faculty or batch already committed within
this sweep, otherwise assigned the next unused room and accepted only under
`validateSlot`. -/
def labCandidateStep (inp : GenInput) (day time : String) (rooms : List LabRoom)
    (acc : LabSweepAcc) (candidate : UnscheduledLab) : LabSweepAcc :=
  if rooms.length ≤ acc.scheduledInThisSlot then acc
  else
    let facultyName := getFacultyName candidate.subject
    let batchKey := (candidate.year, candidate.batch)
    if acc.facultyScheduledThisSlot.contains facultyName ||
        acc.batchesScheduledThisSlot.contains batchKey then acc
    else
      match rooms.get? acc.scheduledInThisSlot with
      | none => acc
      | some labRoom =>
          let slot : Slot :=
            { id := candidate.year.str ++ "-" ++ candidate.batch.str ++ "-" ++
                candidate.subject.code ++ "-" ++ day ++ "-" ++ time ++ "-" ++ labRoom.name,
              day := day, time := time,
              subject := candidate.subject.name ++ " Lab",
              faculty := facultyName, room := labRoom.name, type := .lab,
              year := candidate.year, batch := some candidate.batch,
              duration := getSlotDuration time, semester := candidate.subject.semester }
          if validateSlot inp.subjects acc.st.slots slot then
            { st := { acc.st with slots := acc.st.slots ++ [slot] },
              pool := acc.pool.erase candidate,
              scheduledInThisSlot := acc.scheduledInThisSlot + 1,
              facultyScheduledThisSlot := acc.facultyScheduledThisSlot ++ [facultyName],
              batchesScheduledThisSlot := acc.batchesScheduledThisSlot ++ [batchKey] }
          else acc

/-- `scheduleLabsConcurrently` body for one `(day, time)` cell.  The source
keeps `labsForTargetYear` as a separate spliced copy of the year-filtered
pool; since every removal deletes the same (first structurally equal)
element from both lists, the copy always equals `pool.filter (year = target)`
and is recomputed here. -/
def labSweepCell (inp : GenInput) (analysis : Option AnalysisResult) (targetYear : Year)
    (mode : Mode) (day : String) (acc : GenState × List UnscheduledLab) (time : String) :
    GenState × List UnscheduledLab :=
  let (st, pool) := acc
  let availableLabRooms := getAvailableLabRooms inp.labs st.slots day time
  if availableLabRooms.isEmpty then (st, pool)
  else
    let labsForTargetYear := pool.filter fun lab => lab.year == targetYear
    let candidates := labsForTargetYear.filter fun lab =>
      isBatchAvailable st.slots lab.year (some lab.batch) day time &&
      isFacultyAvailable st.slots (getFacultyName lab.subject) day time &&
      !(hasLabAlreadyOccurredTodayForBatch st.slots lab.year lab.batch day) &&
      !(hadConsecutiveLabForFaculty st.slots (getFacultyName lab.subject) day time) &&
      !(hadConsecutiveLabForBatch inp.constraints st.slots lab.year lab.batch day time)
    let candidates := if mode = .ai then sortLabPool analysis candidates else candidates
    let result := candidates.foldl (labCandidateStep inp day time availableLabRooms)
      { st := st, pool := pool, scheduledInThisSlot := 0,
        facultyScheduledThisSlot := [], batchesScheduledThisSlot := [] }
    (result.st, result.pool)

def scheduleLabsConcurrently (inp : GenInput) (analysis : Option AnalysisResult)
    (st : GenState) (pool : List UnscheduledLab) (targetYear : Year) (mode : Mode) :
    GenState × List UnscheduledLab :=
  let labSlots := getLabSlotsForYear inp.constraints targetYear
  DAYS.foldl (fun acc day => labSlots.foldl (labSweepCell inp analysis targetYear mode day) acc)
    (st, pool)

/-- The throwaway slot used to pre-test the consecutive constraint in the
lecture passes (`test-…`, `fill-test-…`, `fb-test-…` ids). -/
def lectureTestSlot (idPrefix : String) (targetYear : Year) (classroomName : String)
    (lec : UnscheduledLecture) (day time : String) : Slot :=
  { id := idPrefix ++ targetYear.str ++ "-" ++ lec.subject.code ++ "-" ++ day ++ "-" ++ time,
    day := day, time := time, subject := lec.subject.name,
    faculty := getFacultyName lec.subject, room := classroomName, type := .theory,
    year := targetYear, batch := none, duration := getSlotDuration time,
    semester := lec.subject.semester }

/-- The lecture record actually pushed by the lecture passes. -/
def lectureSlot (idPrefix : String) (targetYear : Year) (classroomName : String)
    (lec : UnscheduledLecture) (day time : String) (fillIn : Bool) : Slot :=
  { id := idPrefix ++ targetYear.str ++ "-" ++ lec.subject.code ++ "-" ++ day ++ "-" ++ time,
    day := day, time := time, subject := lec.subject.name,
    faculty := getFacultyName lec.subject, room := classroomName, type := .theory,
    year := targetYear, batch := none, duration := getSlotDuration time,
    semester := lec.subject.semester, isFillIn := fillIn }

/-- `scheduleLecturesWithAI` body for one `(day, time)` cell; the accumulator
carries the state, the caller's pool and the local sorted pool. -/
def lecturesAICell (inp : GenInput) (targetYear : Year) (assignedClassroom : Classroom)
    (day : String) (acc : GenState × List UnscheduledLecture × List UnscheduledLecture)
    (time : String) : GenState × List UnscheduledLecture × List UnscheduledLecture :=
  let (st, pool, sortedPool) := acc
  if isYearOccupied st.slots targetYear day time ||
      isRoomOccupied st.slots assignedClassroom.name day time then acc
  else
    match List.findIdx? (fun lec =>
      lec.year == targetYear &&
      isFacultyAvailable st.slots (getFacultyName lec.subject) day time &&
      !(hasConsecutiveSession st.slots
        (lectureTestSlot "test-" targetYear assignedClassroom.name lec day time))) sortedPool with
    | none => acc
    | some bestFitIndex =>
        match sortedPool.get? bestFitIndex with
        | none => acc
        | some lectureToSchedule =>
            let sortedPool := sortedPool.eraseIdx bestFitIndex
            let pool := pool.erase lectureToSchedule
            let slot := lectureSlot "" targetYear assignedClassroom.name lectureToSchedule
              day time false
            if validateSlot inp.subjects st.slots slot then
              ({ st with slots := st.slots ++ [slot] }, pool, sortedPool)
            else
              (st, pool ++ [lectureToSchedule], sortedPool ++ [lectureToSchedule])

def scheduleLecturesWithAI (inp : GenInput) (analysis : Option AnalysisResult)
    (st : GenState) (pool : List UnscheduledLecture) (targetYear : Year)
    (yearClassrooms : List Classroom) : GenState × List UnscheduledLecture :=
  let sortedPool := sortLecturePool analysis pool
  let batchType := getBatchTypeForYear inp.constraints targetYear
  let relevantTheorySlots :=
    if batchType = .Morning then MORNING_THEORY_SLOTS else AFTERNOON_THEORY_SLOTS
  match yearClassrooms.find? (fun c => c.assignedYear == targetYear) with
  | none => (st, pool)
  | some assignedClassroom =>
      let result := DAYS.foldl
        (fun acc day => relevantTheorySlots.foldl
          (lecturesAICell inp targetYear assignedClassroom day) acc)
        (st, pool, sortedPool)
      (result.1, result.2.1)

/-- `fillRemainingLectureSlots` body for one `(day, time)` cell.  A failed
`validateSlot` re-inserts the unit at its original index
(`splice(i,1)` then `splice(i,0,·)`), leaving the pool unchanged. -/
def fillCell (inp : GenInput) (targetYear : Year) (assignedClassroom : Classroom)
    (day : String) (acc : GenState × List UnscheduledLecture) (time : String) :
    GenState × List UnscheduledLecture :=
  let (st, pool) := acc
  if pool.isEmpty then acc
  else if !(isYearOccupied st.slots targetYear day time) &&
      !(isRoomOccupied st.slots assignedClassroom.name day time) then
    match List.findIdx? (fun lec =>
      lec.year == targetYear &&
      isFacultyAvailable st.slots (getFacultyName lec.subject) day time &&
      !(hasConsecutiveSession st.slots
        (lectureTestSlot "fill-test-" targetYear assignedClassroom.name lec day time))) pool with
    | none => acc
    | some bestFitIndex =>
        match pool.get? bestFitIndex with
        | none => acc
        | some lectureToSchedule =>
            let slot := lectureSlot "fill-" targetYear assignedClassroom.name lectureToSchedule
              day time true
            if validateSlot inp.subjects st.slots slot then
              ({ st with slots := st.slots ++ [slot] }, pool.eraseIdx bestFitIndex)
            else (st, pool)
  else acc

def fillRemainingLectureSlots (inp : GenInput) (st : GenState)
    (pool : List UnscheduledLecture) (targetYear : Year) (yearClassrooms : List Classroom) :
    GenState × List UnscheduledLecture :=
  if pool.isEmpty then (st, pool)
  else
    match yearClassrooms.find? (fun c => c.assignedYear == targetYear) with
    | none => (st, pool)
    | some assignedClassroom =>
        DAYS.foldl
          (fun acc day => ALL_THEORY_SLOTS.foldl
            (fillCell inp targetYear assignedClassroom day) acc)
          (st, pool)

/-- `scheduleLecturesFallback` body for one `(day, time)` cell; the failed
candidate is spliced back at its original index, so the pool is unchanged on
rejection. -/
def lecturesFallbackCell (inp : GenInput) (targetYear : Year) (assignedClassroom : Classroom)
    (day : String) (acc : GenState × List UnscheduledLecture) (time : String) :
    GenState × List UnscheduledLecture :=
  let (st, pool) := acc
  if isYearOccupied st.slots targetYear day time ||
      isRoomOccupied st.slots assignedClassroom.name day time then acc
  else
    match List.findIdx? (fun lec =>
      lec.year == targetYear &&
      isFacultyAvailable st.slots (getFacultyName lec.subject) day time &&
      !(hasConsecutiveSession st.slots
        (lectureTestSlot "fb-test-" targetYear assignedClassroom.name lec day time))) pool with
    | none => acc
    | some bestFitIndex =>
        match pool.get? bestFitIndex with
        | none => acc
        | some lectureToSchedule =>
            let slot := lectureSlot "fb-" targetYear assignedClassroom.name lectureToSchedule
              day time false
            if validateSlot inp.subjects st.slots slot then
              ({ st with slots := st.slots ++ [slot] }, pool.eraseIdx bestFitIndex)
            else (st, pool)

def scheduleLecturesFallback (inp : GenInput) (st : GenState)
    (pool : List UnscheduledLecture) (targetYear : Year) (yearClassrooms : List Classroom) :
    GenState × List UnscheduledLecture :=
  let batchType := getBatchTypeForYear inp.constraints targetYear
  let relevantTheorySlots :=
    if batchType = .Morning then MORNING_THEORY_SLOTS else AFTERNOON_THEORY_SLOTS
  match yearClassrooms.find? (fun c => c.assignedYear == targetYear) with
  | none => (st, pool)
  | some assignedClassroom =>
      DAYS.foldl
        (fun acc day => relevantTheorySlots.foldl
          (lecturesFallbackCell inp targetYear assignedClassroom day) acc)
        (st, pool)

/-- `reportUnscheduled` from `aiTimetableGenerator.ts`. -/
def reportUnscheduled (st : GenState) (lectures : List UnscheduledLecture)
    (labs : List UnscheduledLab) : GenState :=
  let labConflicts : List Conflict := labs.map fun lab =>
    { type := .error,
      message := "Unscheduled Lab: " ++ lab.subject.name ++ " (" ++ lab.year.str ++ "-" ++
        lab.batch.str ++ ")",
      severity := .high,
      affectedEntities := [lab.subject.name] }
  let unscheduledCounts :=
    (lectures.map fun lec => lec.subject.name ++ " (" ++ lec.year.str ++ ")").foldl bumpKey []
  let lectureConflicts : List Conflict := unscheduledCounts.map fun kv =>
    { type := .warning,
      message := "Unscheduled Lectures: " ++ toString kv.2 ++ " for " ++ kv.1,
      severity := .medium,
      affectedEntities := [kv.1] }
  { st with conflicts := st.conflicts ++ labConflicts ++ lectureConflicts }

/-! ### Final validation sweep and statistics -/

/-- First-occurrence deduplication (iteration order of a JS `Map`/`Set`
keyed by insertion). -/
def dedupFirst {α} [BEq α] (l : List α) : List α :=
  l.foldl (fun acc k => if acc.contains k then acc else acc ++ [k]) []

/-- Grouping key of `validateCriticalConstraints`:
`subject-year` with `-batch` appended for labs. -/
def slotGroupKey (s : Slot) : String :=
  s.subject ++ "-" ++ s.year.str ++
    (match s.batch with
     | some b => "-" ++ b.str
     | none => "")

/-- `indexOf` on the day list, `-1` when missing. -/
def dayIdx (day : String) : Int :=
  match List.findIdx? (fun d => d == day) DAYS with
  | some i => (i : Int)
  | none => -1

/-- Pairwise walk of the sorted theory slots emitting one conflict per
adjacent-band pair on the same day. -/
def consecutivePairConflicts (subjectKey : String) : List Slot → List Conflict
  | [] => []
  | [_] => []
  | a :: b :: rest =>
      (if a.day == b.day && theoryTimeIdx a.time != -1 &&
          theoryTimeIdx b.time == theoryTimeIdx a.time + 1 then
        [{ type := .error,
           message := "❌ " ++ subjectKey ++ ": Consecutive sessions on " ++ a.day ++
             " (" ++ a.time ++ " → " ++ b.time ++ ")",
           severity := .high,
           affectedEntities := [subjectKey, a.day] }]
      else []) ++ consecutivePairConflicts subjectKey (b :: rest)

/-- Conflicts contributed by one group of `validateCriticalConstraints`. -/
def criticalConstraintsForKey (subjects : List Subject) (allSlots : List Slot)
    (key : String) : List Conflict :=
  let slots := allSlots.filter fun s => slotGroupKey s == key
  match slots with
  | [] => []
  | slot :: _ =>
      let theorySlots := slots.filter fun s => s.type == SlotType.theory
      let labSlots := slots.filter fun s => s.type == SlotType.lab
      let originalSubject := subjects.find? fun s =>
        (s.name == slot.subject || s.name ++ " Lab" == slot.subject) && s.year == slot.year
      let expectedTheoryHours :=
        match originalSubject with
        | some s => s.theoryHours
        | none => 0
      let theoryChecks :=
        (if 0 < expectedTheoryHours && theorySlots.length < expectedTheoryHours then
          [mkConflict .warning
            ("⚠️ " ++ key ++ ": Only " ++ toString theorySlots.length ++ "/" ++
              toString expectedTheoryHours ++ " theory sessions scheduled")
            .medium [key]]
        else []) ++
        (if expectedTheoryHours < theorySlots.length then
          [mkConflict .error
            ("❌ " ++ key ++ ": Has " ++ toString theorySlots.length ++
              " theory sessions (max " ++ toString expectedTheoryHours ++ " allowed)")
            .high [key]]
        else [])
      let sortedTheorySlots := stableSort (fun a b =>
        decide (dayIdx a.day < dayIdx b.day) ||
          (dayIdx a.day == dayIdx b.day && decide (theoryTimeIdx a.time ≤ theoryTimeIdx b.time)))
        theorySlots
      let consecutiveChecks := consecutivePairConflicts key sortedTheorySlots
      let labChecks :=
        if labSlots.length ≠ 0 then
          let expectedLabSessions :=
            ((match originalSubject with
              | some s => s.labHours
              | none => 0) + 1) / 2
          (if 0 < expectedLabSessions && labSlots.length < expectedLabSessions then
            [mkConflict .warning
              ("⚠️ " ++ key ++ ": Only " ++ toString labSlots.length ++ "/" ++
                toString expectedLabSessions ++ " lab sessions scheduled")
              .medium [key]]
          else []) ++
          (if expectedLabSessions < labSlots.length then
            [mkConflict .error
              ("❌ " ++ key ++ ": Has " ++ toString labSlots.length ++
                " lab sessions (max " ++ toString expectedLabSessions ++ " allowed)")
              .high [key]]
          else []) ++
          (if 0 < expectedLabSessions then
            let scheduledBatches := (labSlots.map (·.batch)).filterMap id
            ([Batch.A, Batch.B, Batch.C].filter fun b =>
              !(scheduledBatches.contains b)).map fun b =>
              mkConflict .error
                ("❌ " ++ key ++ ": Lab session missing for Batch " ++ b.str)
                .high [key, "Batch " ++ b.str]
          else [])
        else []
      theoryChecks ++ consecutiveChecks ++ labChecks

/-- `validateCriticalConstraints`. -/
def validateCriticalConstraints (subjects : List Subject) (st : GenState) : GenState :=
  let keys := dedupFirst (st.slots.map slotGroupKey)
  { st with conflicts := st.conflicts ++ keys.flatMap (criticalConstraintsForKey subjects st.slots) }

/-- `validateFacultyWorkload`. -/
def validateFacultyWorkload (faculty : List Faculty) (st : GenState) : GenState :=
  let names := dedupFirst (st.slots.map (·.faculty))
  let extra := names.flatMap fun facultyName =>
    match faculty.find? (fun f => f.name == facultyName) with
    | none => []
    | some f =>
        let days := dedupFirst ((st.slots.filter fun s => s.faculty == facultyName).map (·.day))
        days.filterMap fun day =>
          let hours := ((st.slots.filter fun s =>
            s.faculty == facultyName && s.day == day).map (·.duration)).sum
          if f.maxHoursPerDay < hours then
            some { type := .warning,
                   message := "Faculty Load: " ++ facultyName ++ " exceeds daily limit (" ++
                     toString hours ++ "h/" ++ toString f.maxHoursPerDay ++ "h) on " ++ day,
                   severity := .medium, affectedEntities := [facultyName, day] }
          else none
  { st with conflicts := st.conflicts ++ extra }

/-- One decimal digit of a percentage, rounding half up — models
`((used / total) * 100).toFixed(1)` on exact rationals. -/
def formatPercentTenths (used total : Nat) : String :=
  let tenths := if total = 0 then 0 else (2000 * used + total) / (2 * total)
  toString (tenths / 10) ++ "." ++ toString (tenths % 10)

/-- `validateRoomUtilization`.  The float threshold `rate < 50` is modelled
by the exact rational comparison `2 * usedRooms < totalRooms` (with the
`totalRooms = 0` branch forcing `rate = 0 < 50`). -/
def validateRoomUtilization (inp : GenInput) (st : GenState) : GenState :=
  let roomUsage := (st.slots.map (·.room)).foldl bumpKey []
  let totalRooms := inp.classrooms.length + inp.labs.length
  let usedRooms := roomUsage.length
  let lowUtilization :=
    if totalRooms = 0 || 2 * usedRooms < totalRooms then
      [mkConflict .warning
        ("Low room utilization: " ++ formatPercentTenths usedRooms totalRooms ++
          "% (" ++ toString usedRooms ++ "/" ++ toString totalRooms ++ " rooms used)")
        .medium ["Room Utilization"]]
    else []
  let overUsed := roomUsage.filterMap fun kv =>
    if 20 < kv.2 then
      some (mkConflict .warning
        ("High usage for " ++ kv.1 ++ ": " ++ toString kv.2 ++ " slots per week")
        .medium [kv.1])
    else none
  { st with conflicts := st.conflicts ++ lowUtilization ++ overUsed }

def SlotType.str : SlotType → String
  | .theory => "theory"
  | .lab => "lab"

/-- Stand-in for `CryptoJS.SHA256(·).toString()`: a fixed pure function of
the canonical encoding.  Every property proved about it concerns only
determinism, never the digest value. -/
def sha256 (s : String) : String := "sha256-" ++ s

/-- Canonical per-slot tuple of `consistencyData`
(`{day, time, subject, faculty, room, type, year, batch}`). -/
def encodeCanonSlot (s : Slot) : String :=
  s.day ++ "|" ++ s.time ++ "|" ++ s.subject ++ "|" ++ s.faculty ++ "|" ++ s.room ++ "|" ++
    SlotType.str s.type ++ "|" ++ s.year.str ++ "|" ++
    (match s.batch with
     | some b => b.str
     | none => "")

/-- The `localeCompare` sort key of `consistencyData.slots`. -/
def canonSortKey (s : Slot) : String := s.day ++ "-" ++ s.time ++ "-" ++ s.subject

structure GenStats where
  totalSlots : Nat
  theorySlots : Nat
  labSlots : Nat
  facultyUtilization : Nat
  roomUtilization : Nat
  constraintScore : Nat
  consistencyHash : String
  deriving DecidableEq, Repr

/-- `Math.round(ratio * 100)` for the ratio `a / b`, with the source's
`b > 0` guard. -/
def roundedPercent (a b : Nat) : Nat :=
  if b = 0 then 0 else (200 * a + b) / (2 * b)

/-- `calculateGenerationStats`.  String order stands in for the
`localeCompare` collation; both are total orders on the sort keys, and the
claims only concern the digest's determinism. -/
def calculateGenerationStats (inp : GenInput) (st : GenState)
    (analysis : Option AnalysisResult) (targetYear : Year) (targetSemester : Nat) : GenStats :=
  let theorySlots := (st.slots.filter fun s => s.type == SlotType.theory).length
  let labSlots := (st.slots.filter fun s => s.type == SlotType.lab).length
  let facultyInvolved := dedupFirst (st.slots.map (·.faculty))
  let roomsUsed := dedupFirst (st.slots.map (·.room))
  let totalRooms := inp.classrooms.length + inp.labs.length
  let constraintScore :=
    let estimate := if st.conflicts.any (fun c => c.type == ConflictType.error) then 50 else 75
    match analysis with
    | some a => if a.constraintScore = 0 then estimate else a.constraintScore
    | none => estimate
  let sortedCanon := (stableSort (fun a b =>
    decide (canonSortKey a ≤ canonSortKey b)) st.slots).map encodeCanonSlot
  { totalSlots := st.slots.length,
    theorySlots := theorySlots,
    labSlots := labSlots,
    facultyUtilization := roundedPercent facultyInvolved.length inp.faculty.length,
    roomUtilization := roundedPercent roomsUsed.length totalRooms,
    constraintScore := constraintScore,
    consistencyHash := sha256 (targetYear.str ++ "|" ++ toString targetSemester ++ "|" ++
      joinSep ";" sortedCanon) }

/-- `getFallbackAnalysisResult` (the generator's own, built from the
accumulated conflicts). -/
def getFallbackAnalysisResult (conflicts : List Conflict) : AnalysisResult :=
  { isValid := !(conflicts.any fun c => c.type == ConflictType.error),
    conflicts := conflicts.map fun c =>
      { c with type := if c.type == ConflictType.success then .info else c.type },
    optimizationSuggestions :=
      ["Fallback used. Consider AI for optimization.", "Review unscheduled items."],
    constraintScore := 60,
    recommendedSlots := [] }

structure AIGenerationResult where
  slots : List Slot
  conflicts : List Conflict
  analysisResult : AnalysisResult
  generationStats : GenStats
  deriving Repr

/-- `createEmptyResult`: the degraded result shape; the consistency hash
embeds `Date.now()` (`now`). -/
def createEmptyResult (conflicts : List Conflict) (analysisResult : Option AnalysisResult)
    (now : Nat) : AIGenerationResult :=
  { slots := [],
    conflicts := conflicts,
    analysisResult :=
      match analysisResult with
      | some a => a
      | none => getFallbackAnalysisResult conflicts,
    generationStats :=
      { totalSlots := 0, theorySlots := 0, labSlots := 0, facultyUtilization := 0,
        roomUtilization := 0, constraintScore := 0,
        consistencyHash := "error-" ++ toString now } }

/-- `fallbackGeneration`: pre-check for data insufficiency, then the
non-advisory construction passes. -/
def fallbackGeneration (inp : GenInput) (st : GenState) (now : Nat) (targetYear : Year)
    (targetSemester : Nat) : AIGenerationResult :=
  let relevant := relevantSubjects inp.subjects targetYear targetSemester
  let yearClassrooms := inp.classrooms.filter fun c => c.assignedYear == targetYear
  if relevant.isEmpty || yearClassrooms.isEmpty then
    let st := if relevant.isEmpty then
        { st with conflicts := st.conflicts ++
          [{ type := .error,
             message := "No subjects for " ++ targetYear.str ++ " Sem " ++
               toString targetSemester,
             severity := .high, affectedEntities := [] }] }
      else st
    let st := if yearClassrooms.isEmpty then
        { st with conflicts := st.conflicts ++
          [{ type := .error,
             message := "No classrooms for " ++ targetYear.str,
             severity := .high, affectedEntities := [] }] }
      else st
    createEmptyResult st.conflicts none now
  else
    let unscheduledLectures := createLecturePool relevant
    let unscheduledLabs := createLabPool relevant
    let (st, unscheduledLabs) :=
      scheduleLabsConcurrently inp none st unscheduledLabs targetYear .fallback
    let (st, unscheduledLectures) :=
      scheduleLecturesFallback inp st unscheduledLectures targetYear yearClassrooms
    let (st, unscheduledLectures) :=
      fillRemainingLectureSlots inp st unscheduledLectures targetYear yearClassrooms
    let st := reportUnscheduled st unscheduledLectures unscheduledLabs
    let st := validateCriticalConstraints inp.subjects st
    { slots := st.slots,
      conflicts := st.conflicts,
      analysisResult := getFallbackAnalysisResult st.conflicts,
      generationStats := calculateGenerationStats inp st none targetYear targetSemester }

/-- `generateSlotsWithAI`: phase 0 recommendations, concurrent labs,
lectures, fill-in, report. -/
def generateSlotsWithAI (inp : GenInput) (analysis : AnalysisResult) (st : GenState)
    (targetYear : Year) (targetSemester : Nat) : GenState :=
  let relevant := relevantSubjects inp.subjects targetYear targetSemester
  let yearClassrooms := inp.classrooms.filter fun c => c.assignedYear == targetYear
  let st := analysis.recommendedSlots.foldl
    (applyRecommendation inp relevant targetYear targetSemester) st
  let unscheduledLectures := createLecturePool relevant
  let unscheduledLabs := createLabPool relevant
  let (st, unscheduledLabs) :=
    scheduleLabsConcurrently inp (some analysis) st unscheduledLabs targetYear .ai
  let (st, unscheduledLectures) :=
    scheduleLecturesWithAI inp (some analysis) st unscheduledLectures targetYear yearClassrooms
  let (st, unscheduledLectures) :=
    fillRemainingLectureSlots inp st unscheduledLectures targetYear yearClassrooms
  reportUnscheduled st unscheduledLectures unscheduledLabs

/-- `validateAndOptimize`: advisory conflicts are adopted, then the three
final validators run; only the conflict list changes. -/
def validateAndOptimize (inp : GenInput) (analysis : Option AnalysisResult) (st : GenState) :
    GenState :=
  let st :=
    match analysis with
    | some a => { st with conflicts := st.conflicts ++ a.conflicts }
    | none => st
  let st := validateCriticalConstraints inp.subjects st
  let st := validateFacultyWorkload inp.faculty st
  validateRoomUtilization inp st

/-! ### Post-hoc optimizer (`optimizeDistribution`)

Defined on the class but not invoked by `generateTimetable`; the embedding
follows the nested search order of the source: source day, duplicated
subject (first-occurrence order of `Object.entries`), target day, candidate
slot — the first legal pair is swapped, at most one swap per iteration, at
most 20 iterations, stop on a swap-free iteration. -/

/-- `isFacultyAvailableForSwap`: like `isFacultyAvailable` but ignoring the
slot being vacated. -/
def isFacultyAvailableForSwap (slots : List Slot) (facultyName day time excludeSlotId : String) :
    Bool :=
  !(slots.any fun s =>
    s.id != excludeSlotId && s.faculty == facultyName && s.day == day &&
      doTimesOverlap s.time time)

/-- `wouldCreateConsecutive`: placing `subjectName` at `(day, time)` would
abut an existing same-subject theory slot in the adjacent theory band. -/
def wouldCreateConsecutive (slots : List Slot) (subjectName : String) (year : Year)
    (day time excludeSlotId : String) : Bool :=
  match List.findIdx? (fun t => t == time) ALL_THEORY_SLOTS with
  | none => false
  | some timeIndex =>
      let previousTime := if 0 < timeIndex then ALL_THEORY_SLOTS.get? (timeIndex - 1) else none
      let nextTime := ALL_THEORY_SLOTS.get? (timeIndex + 1)
      (match previousTime with
       | some pt => slots.any fun s =>
           s.id != excludeSlotId && s.year == year && s.day == day &&
             s.type == SlotType.theory && s.time == pt && s.subject == subjectName
       | none => false) ||
      (match nextTime with
       | some nt => slots.any fun s =>
           s.id != excludeSlotId && s.year == year && s.day == day &&
             s.type == SlotType.theory && s.time == nt && s.subject == subjectName
       | none => false)

/-- `slotsByDay[day]`: the year's theory slots of a day, sorted by theory
band index. -/
def slotsByDayFor (slots : List Slot) (targetYear : Year) (day : String) : List Slot :=
  stableSort (fun a b => decide (theoryTimeIdx a.time ≤ theoryTimeIdx b.time))
    ((slots.filter fun s => s.year == targetYear && s.type == SlotType.theory).filter
      fun s => s.day == day)

/-- Second occurrence of a duplicated subject among a day's sorted slots
(`findIndex` with `idx > findIndex-of-first`). -/
def secondOccurrence (dailySlots : List Slot) (subjectToMove : String) : Option Slot :=
  match List.findIdx? (fun s => s.subject == subjectToMove) dailySlots with
  | none => none
  | some first =>
      (dailySlots.enum.find? fun p => p.2.subject == subjectToMove && first < p.1).map (·.2)

/-- Candidate-slot scan on one target day: the first mutually legal swap
partner, returned as the pair of indices of the two records in the full
accepted list (located by id, as the source's `findIndex`). -/
def findSwapCandidate (slots : List Slot) (targetYear : Year) (day : String)
    (slotToMove : Slot) (targetDay : String) (targetDailySlots : List Slot) :
    Option (Nat × Nat) :=
  targetDailySlots.findSome? fun candidateSlot =>
    if candidateSlot.subject == slotToMove.subject then none
    else if !(isFacultyAvailableForSwap slots slotToMove.faculty targetDay
        candidateSlot.time candidateSlot.id) then none
    else if !(isFacultyAvailableForSwap slots candidateSlot.faculty day
        slotToMove.time slotToMove.id) then none
    else if wouldCreateConsecutive slots slotToMove.subject targetYear targetDay
        candidateSlot.time candidateSlot.id then none
    else if wouldCreateConsecutive slots candidateSlot.subject targetYear day
        slotToMove.time slotToMove.id then none
    else
      match List.findIdx? (fun s => s.id == slotToMove.id) slots,
          List.findIdx? (fun s => s.id == candidateSlot.id) slots with
      | some originalSlotIndex, some targetSlotIndex =>
          some (originalSlotIndex, targetSlotIndex)
      | _, _ => none

/-- The per-source-day search of one optimizer iteration. -/
def findSwapForDay (slots : List Slot) (targetYear : Year) (day : String) :
    Option (Nat × Nat) :=
  let dailySlots := slotsByDayFor slots targetYear day
  let subjectCounts := (dailySlots.map (·.subject)).foldl bumpKey []
  let duplicateSubjects := (subjectCounts.filter fun kv => 1 < kv.2).map (·.1)
  duplicateSubjects.findSome? fun subjectToMove =>
    match secondOccurrence dailySlots subjectToMove with
    | none => none
    | some slotToMove =>
        DAYS.findSome? fun targetDay =>
          if targetDay == day then none
          else
            let targetDailySlots := slotsByDayFor slots targetYear targetDay
            if 1 ≤ (targetDailySlots.filter fun s => s.subject == subjectToMove).length then none
            else findSwapCandidate slots targetYear day slotToMove targetDay targetDailySlots

/-- First legal swap of an iteration, in the source's loop order. -/
def findSwap (slots : List Slot) (targetYear : Year) : Option (Nat × Nat) :=
  DAYS.findSome? (findSwapForDay slots targetYear)

/-- Exchange exactly the `subject`, `faculty` and `semester` fields of the
records at the two indices (ids and grid coordinates are left in place, the
commented-out id swap of the source included). -/
def applySwap (slots : List Slot) (i j : Nat) : List Slot :=
  match slots.get? i, slots.get? j with
  | some a, some b =>
      (slots.set i { a with subject := b.subject, faculty := b.faculty, semester := b.semester
        }).set j { b with subject := a.subject, faculty := a.faculty, semester := a.semester }
  | _, _ => slots

/-- The bounded iteration: stop at zero fuel or on the first swap-free pass. -/
def optimizeLoop (targetYear : Year) : Nat → List Slot → List Slot
  | 0, slots => slots
  | fuel + 1, slots =>
      match findSwap slots targetYear with
      | none => slots
      | some (i, j) => optimizeLoop targetYear fuel (applySwap slots i j)

/-- `optimizeDistribution` (`maxSwaps = 20`). -/
def optimizeDistribution (slots : List Slot) (targetYear : Year) : List Slot :=
  optimizeLoop targetYear 20 slots

/-- `generateTimetable`: the advisory outcome decides between the AI path
and (on a rejected advisory step, caught by the top-level `try/catch`) the
fallback path. -/
def generateTimetable (inp : GenInput) (advisory : Except Unit AnalysisResult) (now : Nat)
    (targetYear : Year) (targetSemester : Nat) : AIGenerationResult :=
  match advisory with
  | .error _ => fallbackGeneration inp emptyState now targetYear targetSemester
  | .ok analysis =>
      let st := generateSlotsWithAI inp analysis emptyState targetYear targetSemester
      let st := validateAndOptimize inp (some analysis) st
      { slots := st.slots,
        conflicts := st.conflicts,
        analysisResult := analysis,
        generationStats := calculateGenerationStats inp st (some analysis) targetYear
          targetSemester }

end AIGen

/-! ## Definitions used by the theorem statements -/

namespace Solver

/-- Number of hard rules the given slot fails against the accepted set. -/
def slotHardFailCount (slots : List Slot) (ctx : Ctx) (slot : Slot) : Nat :=
  (defaultRules.filter fun r => r.kind == RuleKind.hard && !(r.validate slot slots ctx)).length

/-- Signed soft-rule contribution of one slot: `+weight` per passing soft
rule, `-weight` per failing one. -/
def slotSoftScore (slots : List Slot) (ctx : Ctx) (slot : Slot) : Int :=
  ((defaultRules.filter fun r => r.kind == RuleKind.soft).map fun r =>
    if r.validate slot slots ctx then r.weight else -r.weight).sum

/-- Rendered from the claim's words, for comparison against the source
behavior: two distinct accepted slots sharing faculty, room, or
(cohort-year, batch) on the same day *with overlapping times*. -/
def specOverlapHardConflict (slots : List Slot) : Bool :=
  slots.any fun s1 => slots.any fun s2 =>
    s2.id != s1.id && s2.day == s1.day && doTimesOverlap s2.time s1.time &&
      (s2.faculty == s1.faculty || s2.room == s1.room ||
        (s2.year == s1.year && s2.batch == s1.batch))

end Solver

namespace AIGen

/-- Slot lists reachable from a start list by inserting only slots that
`validateSlot` accepts against the already-accepted list — the acceptance
discipline guarding every `generatedSlots.push` of `AITimetableGenerator`. -/
inductive Guarded (subjects : List Subject) : List Slot → List Slot → Prop
  | refl (l : List Slot) : Guarded subjects l l
  | push {l m : List Slot} (s : Slot) : Guarded subjects l m →
      validateSlot subjects m s = true → Guarded subjects l (m ++ [s])

end AIGen

/-- The grid coordinates and bookkeeping fields the optimizer must not
touch: day, time, room, kind, cohort-year, batch and duration. -/
def gridFields (s : Slot) : String × String × String × SlotType × Year × Option Batch × Nat :=
  (s.day, s.time, s.room, s.type, s.year, s.batch, s.duration)

/-! ## Concrete instances for counterexamples and witnesses -/

def baseConstraints : Constraints :=
  { maxHoursPerDay := 6, minBreakBetweenClasses := 15, maxConsecutiveHours := 3,
    prioritizeLabAfternoon := true, allowBackToBackTheory := false, facultyRestSlots := 1,
    yearBatchType := none }

def mkLabRoom (n : String) : LabRoom :=
  { id := n, name := n, capacity := 30, type := "Computer Lab", equipment := [],
    floor := 1, availableHours := [], compatibleSubjects := [] }

/-- A lab-only subject (`theoryHours = 0`, `labHours = 2`). -/
def oneLabSubject : Subject :=
  { id := "1", name := "DBMS", code := "CS301", year := .SE, theoryHours := 0,
    labHours := 2, faculty := .byName "Prof X", semester := 3 }

/-- One lab subject, two lab rooms, no classrooms: the plain generator's
concurrent lab pass books the subject's faculty into both rooms at the same
`(day, time)`. -/
def plainDoubleBookInput : GenInput :=
  { subjects := [oneLabSubject], faculty := [], classrooms := [],
    labs := [mkLabRoom "L1", mkLabRoom "L2"], constraints := baseConstraints }

/-- One lab subject, one lab room, zero classrooms for the target year. -/
def noClassroomInput : GenInput :=
  { subjects := [oneLabSubject], faculty := [], classrooms := [], labs := [mkLabRoom "L1"],
    constraints := baseConstraints }

/-- The advisory analysis actually produced for `noClassroomInput` when the
external model call fails (the analyzer's internal fallback). -/
def noClassroomAdvisory : AnalysisResult :=
  analyzeConstraintsFallback noClassroomInput.subjects noClassroomInput.classrooms .SE 3

/-- A theory candidate for the lab-only subject (declared `theoryHours = 0`). -/
def zeroHourTheorySlot : Slot :=
  { id := "SE-CS301-Monday-8:10-9:10", day := "Monday", time := "8:10-9:10",
    subject := "DBMS", faculty := "Prof X", room := "E404", type := .theory,
    year := .SE, batch := none, duration := 1, semester := 3 }

/-- Three already-accepted theory slots of one (unknown) subject, on
distinct days. -/
def threeTheorySlots : List Slot :=
  ["Monday", "Tuesday", "Wednesday"].map fun day =>
    { id := "SE-CS301-" ++ day ++ "-8:10-9:10", day := day, time := "8:10-9:10",
      subject := "DBMS", faculty := "Prof X", room := "E404", type := .theory,
      year := .SE, batch := none, duration := 1, semester := 3 }

/-- Two slots with the same faculty and day whose time ranges overlap but
are written differently, in different rooms and for different years. -/
def overlapSlotA : Slot :=
  { id := "a", day := "Monday", time := "1:15-3:15", subject := "DBMS Lab",
    faculty := "Prof X", room := "L1", type := .lab, year := .SE, batch := some .A,
    duration := 2, semester := 3 }

def overlapSlotB : Slot :=
  { id := "b", day := "Monday", time := "1:15-2:15", subject := "COA",
    faculty := "Prof X", room := "E404", type := .theory, year := .TE, batch := none,
    duration := 1, semester := 3 }

def overlapCtx : Solver.Ctx := { subjects := [], faculty := [] }

/-- A subject with a positive declared weekly lecture requirement. -/
def theorySubject : Subject :=
  { id := "2", name := "COA", code := "CS302", year := .SE, theoryHours := 3,
    labHours := 0, faculty := .byName "Prof Y", semester := 3 }

/-- An accepted theory slot of `theorySubject`. -/
def theoryCOASlot : Slot :=
  { id := "SE-CS302-Monday-8:10-9:10", day := "Monday", time := "8:10-9:10",
    subject := "COA", faculty := "Prof Y", room := "E404", type := .theory,
    year := .SE, batch := none, duration := 1, semester := 3 }

/-! ## Theorems -/

/-- C5: on two well-formed time-range strings the overlap primitive computes
`max(startA, startB) < min(endA, endB)` over the HHMM-parsed ranges; in
particular touching ranges do not overlap (`8:10-10:10` vs `10:10-10:25`)
while properly intersecting ranges do (`8:10-9:10` vs `8:40-9:40`). -/
theorem overlap_primitive_spec :
    doTimesOverlap "8:10-10:10" "10:10-10:25" = false ∧
    doTimesOverlap "8:10-9:10" "8:40-9:40" = true ∧
    ∀ t1 t2 a b c d, parseRange t1 = some (a, b) → parseRange t2 = some (c, d) →
      doTimesOverlap t1 t2 = decide (max a c < min b d) := by
  refine ⟨by decide, by decide, ?_⟩
  intro t1 t2 a b c d h1 h2
  simp [doTimesOverlap, h1, h2]

/-- Witness for C5 at the claim's own concrete ranges. -/
theorem overlap_primitive_spec_witness :
    parseRange "8:10-9:10" = some (810, 910) ∧ parseRange "8:40-9:40" = some (840, 940) ∧
    doTimesOverlap "8:10-9:10" "8:40-9:40" = decide (max 810 840 < min 910 940) :=
  ⟨by decide, by decide,
    overlap_primitive_spec.2.2 "8:10-9:10" "8:40-9:40" 810 910 840 940 (by decide) (by decide)⟩

/-- C6: contrary to the claim, a string on which parsing fails makes the
overlap primitive return `false`, not `true` — `parseInt` yields `NaN`
without throwing, every `NaN` comparison is false, and the `catch` branch
that would return `true` is unreachable for string inputs. -/
theorem overlap_malformed_returns_false :
    parseRange "abc" = none ∧
    doTimesOverlap "abc" "8:10-9:10" = false ∧
    doTimesOverlap "8:10-9:10" "abc" = false := by
  refine ⟨by decide, by decide, by decide⟩

/-- C3: each subject of the filtered catalog contributes exactly
`theoryHours` lecture demand units and `3 * ceil(labHours / 2)` lab demand
units (one per batch label per block); `labHours = 2` yields exactly 3. -/
theorem demand_pool_counts : ∀ (subjects : List Subject) (ty : Year) (ts : Nat)
    (pre post : List Subject) (s : Subject),
    relevantSubjects subjects ty ts = pre ++ s :: post →
    createLecturePool (relevantSubjects subjects ty ts) =
      createLecturePool pre ++
        List.replicate s.theoryHours { subject := s, year := s.year } ++
        createLecturePool post ∧
    createLabPool (relevantSubjects subjects ty ts) =
      createLabPool pre ++ labUnitsFor s ++ createLabPool post ∧
    (List.replicate s.theoryHours
      ({ subject := s, year := s.year } : UnscheduledLecture)).length = s.theoryHours ∧
    (labUnitsFor s).length = 3 * ((s.labHours + 1) / 2) ∧
    (s.labHours = 2 → (labUnitsFor s).length = 3) := by
  have hlen : ∀ (k : Nat) (f : Unit → List UnscheduledLab),
      (((List.replicate k (0 : Nat)).flatMap fun _ => f ()).length = k * (f ()).length) := by
    intro k f
    induction k with
    | zero => simp
    | succ n ih =>
        simp only [List.replicate_succ, List.flatMap_cons, List.length_append, ih]
        ring
  intro subjects ty ts pre post s h
  have hunits : (labUnitsFor s).length = 3 * ((s.labHours + 1) / 2) := by
    have := hlen ((s.labHours + 1) / 2)
      (fun _ => [Batch.A, Batch.B, Batch.C].map fun batch =>
        { subject := s, year := s.year, batch := batch })
    simp only [labUnitsFor]
    rw [this, Nat.mul_comm]
    simp
  refine ⟨?_, ?_, by simp, hunits, ?_⟩
  · rw [h]
    simp [createLecturePool]
  · rw [h]
    simp [createLabPool]
  · intro h2
    rw [hunits, h2]

/-- Witness for C3: the lab-only subject (`labHours = 2`) contributes no
lecture units and exactly three lab units. -/
theorem demand_pool_counts_witness :
    createLecturePool (relevantSubjects [oneLabSubject] .SE 3) = [] ∧
    (labUnitsFor oneLabSubject).length = 3 := by
  have h := demand_pool_counts [oneLabSubject] .SE 3 [] [] oneLabSubject (by decide)
  exact ⟨by rw [h.1]; decide, h.2.2.2.2 rfl⟩

/-- C10: for a theory candidate whose subject is missing from the catalog or
declares `theoryHours = 0`, `validateSlot` enforces the default weekly cap
of 3: acceptance is exactly the conjunction of the conflict checks with a
weekly count still below 3. -/
theorem default_theory_cap : ∀ (subjects : List Subject) (l : List Slot) (s : Slot),
    s.type = SlotType.theory →
    (subjects.find? (fun q => q.name == s.subject && q.year == s.year) = none ∨
      ∃ sd, subjects.find? (fun q => q.name == s.subject && q.year == s.year) = some sd ∧
        sd.theoryHours = 0) →
    (AIGen.validateSlot subjects l s = true ↔
      AIGen.basicConflictB l s = false ∧ AIGen.hasConsecutiveSession l s = false ∧
        AIGen.theoryCountFor l s.subject s.year < 3) := by
  intro subjects l s hty hdef
  have hmax : AIGen.maxAllowedFor subjects s.subject s.year = 3 := by
    unfold AIGen.maxAllowedFor
    rcases hdef with h | ⟨sd, h, h0⟩
    · rw [h]
    · rw [h]
      simp [h0]
  unfold AIGen.validateSlot
  rw [hmax, hty]
  constructor
  · intro h
    by_cases hb : AIGen.basicConflictB l s = true
    · simp [hb] at h
    · by_cases hc : AIGen.hasConsecutiveSession l s = true
      · simp [hb, hc] at h
      · by_cases hcount : AIGen.theoryCountFor l s.subject s.year < 3
        · simp_all
        · simp [hb, hc, Nat.le_of_not_lt hcount] at h
  · rintro ⟨hb, hc, hcount⟩
    simp [hb, hc, Nat.not_le.mpr hcount]

/-- Witness for C10: with an empty catalog the candidate is accepted on an
empty schedule and rejected once three same-subject theory slots exist. -/
theorem default_theory_cap_witness :
    AIGen.validateSlot [] threeTheorySlots zeroHourTheorySlot = false ∧
    AIGen.validateSlot [] [] zeroHourTheorySlot = true := by
  have h1 := default_theory_cap [] threeTheorySlots zeroHourTheorySlot rfl (Or.inl rfl)
  have h2 := default_theory_cap [] [] zeroHourTheorySlot rfl (Or.inl rfl)
  constructor
  · cases hv : AIGen.validateSlot [] threeTheorySlots zeroHourTheorySlot with
    | false => rfl
    | true => exact absurd (h1.mp hv).2.2 (by decide)
  · exact h2.mpr ⟨by decide, by decide, by decide⟩

/-! ### Guarded-insertion infrastructure (C1, C2)

Every `generatedSlots.push` of `AITimetableGenerator` — in the
recommendation phase, the concurrent lab sweep, both lecture passes and the
fill-in pass — is guarded by `validateSlot` against the slots accepted so
far.  `Guarded` closes this discipline under sequencing; the lemmas below
show each phase stays inside it and that it preserves conflict-freedom. -/

theorem guarded_trans {subjects : List Subject} {l m n : List Slot}
    (h1 : AIGen.Guarded subjects l m) (h2 : AIGen.Guarded subjects m n) :
    AIGen.Guarded subjects l n := by
  induction h2 with
  | refl => exact h1
  | push s _ hv ih => exact .push s ih hv

theorem guarded_foldl {σ α : Type} (subjects : List Subject) (proj : σ → List Slot)
    (f : σ → α → σ) (hf : ∀ acc x, AIGen.Guarded subjects (proj acc) (proj (f acc x))) :
    ∀ (xs : List α) (acc : σ), AIGen.Guarded subjects (proj acc) (proj (xs.foldl f acc)) := by
  intro xs
  induction xs with
  | nil => intro acc; exact .refl _
  | cons x xs ih => intro acc; exact guarded_trans (hf acc x) (ih (f acc x))

/-- A slot accepted by `validateSlot` conflicts with no accepted slot: the
`basicConflict` scan covers exactly the claim-level pair conflicts. -/
theorem validateSlot_no_conflict {subjects : List Subject} {m : List Slot} {s : Slot}
    (h : AIGen.validateSlot subjects m s = true) :
    ∀ e ∈ m, pairConflictB e s = false := by
  intro e he
  have hb : AIGen.basicConflictB m s = false := by
    cases hbc : AIGen.basicConflictB m s with
    | false => rfl
    | true => rw [AIGen.validateSlot, hbc] at h; simp at h
  rw [AIGen.basicConflictB, List.any_eq_false] at hb
  have he2 := hb e he
  simp only [Bool.not_eq_true] at he2
  unfold pairConflictB
  revert he2
  generalize (e.day == s.day) = d
  generalize (doTimesOverlap e.time s.time) = ov
  generalize (e.faculty == s.faculty) = fac
  generalize (e.room == s.room) = room
  generalize (e.year == s.year) = yr
  generalize (s.batch.isNone) = sb
  generalize (e.batch.isNone) = eb
  generalize (e.batch == s.batch) = beq
  revert d ov fac room yr sb eb beq
  decide

theorem conflictFree_append_iff {m : List Slot} {s : Slot} :
    conflictFreeB (m ++ [s]) = true ↔
      conflictFreeB m = true ∧ ∀ e ∈ m, pairConflictB e s = false := by
  induction m with
  | nil => simp [conflictFreeB]
  | cons x xs ih =>
      rw [List.cons_append, conflictFreeB, Bool.and_eq_true, List.all_append, Bool.and_eq_true,
        ih, show conflictFreeB (x :: xs) =
          (xs.all (fun t => !pairConflictB x t) && conflictFreeB xs) from rfl,
        Bool.and_eq_true]
      simp only [List.all_cons, List.all_nil, Bool.and_true, List.all_eq_true, List.mem_cons,
        Bool.not_eq_true']
      constructor
      · rintro ⟨⟨hall, hxs⟩, hcf, hes⟩
        refine ⟨⟨hall, hcf⟩, ?_⟩
        rintro e (rfl | hmem)
        · exact hxs
        · exact hes e hmem
      · rintro ⟨⟨hall, hcf⟩, hes⟩
        exact ⟨⟨hall, hes x (Or.inl rfl)⟩, hcf, fun e hmem => hes e (Or.inr hmem)⟩

theorem guarded_conflictFree {subjects : List Subject} {l m : List Slot}
    (h : AIGen.Guarded subjects l m) (hl : conflictFreeB l = true) :
    conflictFreeB m = true := by
  induction h with
  | refl => exact hl
  | push s _ hv ih => exact conflictFree_append_iff.mpr ⟨ih, validateSlot_no_conflict hv⟩

theorem guarded_applyRecommendation (inp : GenInput) (relevant : List Subject) (ty : Year)
    (ts : Nat) (st : GenState) (rec : Recommendation) :
    AIGen.Guarded inp.subjects st.slots
      ((AIGen.applyRecommendation inp relevant ty ts st rec).slots) := by
  unfold AIGen.applyRecommendation
  repeat' (first | split | dsimp only)
  all_goals try exact .refl _
  all_goals (rename_i hv; exact .push _ (.refl _) hv)

theorem guarded_labCandidateStep (inp : GenInput) (day time : String) (rooms : List LabRoom)
    (acc : AIGen.LabSweepAcc) (cand : UnscheduledLab) :
    AIGen.Guarded inp.subjects acc.st.slots
      ((AIGen.labCandidateStep inp day time rooms acc cand).st.slots) := by
  unfold AIGen.labCandidateStep
  repeat' (first | split | dsimp only)
  all_goals try exact .refl _
  all_goals (rename_i hv; exact .push _ (.refl _) hv)

theorem guarded_labSweepCell (inp : GenInput) (analysis : Option AnalysisResult) (ty : Year)
    (mode : AIGen.Mode) (day : String) (acc : GenState × List UnscheduledLab) (time : String) :
    AIGen.Guarded inp.subjects acc.1.slots
      ((AIGen.labSweepCell inp analysis ty mode day acc time).1.slots) := by
  obtain ⟨st, pool⟩ := acc
  unfold AIGen.labSweepCell
  dsimp only
  split
  · exact .refl _
  · dsimp only
    exact guarded_foldl inp.subjects (fun a => a.st.slots)
      (AIGen.labCandidateStep inp day time (AIGen.getAvailableLabRooms inp.labs st.slots day time))
      (guarded_labCandidateStep inp day time
        (AIGen.getAvailableLabRooms inp.labs st.slots day time)) _
      { st := st, pool := pool, scheduledInThisSlot := 0, facultyScheduledThisSlot := [],
        batchesScheduledThisSlot := [] }

theorem guarded_scheduleLabsConcurrently (inp : GenInput) (analysis : Option AnalysisResult)
    (st : GenState) (pool : List UnscheduledLab) (ty : Year) (mode : AIGen.Mode) :
    AIGen.Guarded inp.subjects st.slots
      ((AIGen.scheduleLabsConcurrently inp analysis st pool ty mode).1.slots) := by
  unfold AIGen.scheduleLabsConcurrently
  dsimp only
  exact guarded_foldl inp.subjects (fun a => a.1.slots)
    (fun acc day => List.foldl (AIGen.labSweepCell inp analysis ty mode day) acc
      (AIGen.getLabSlotsForYear inp.constraints ty))
    (fun acc day => guarded_foldl inp.subjects (fun a => a.1.slots)
      (AIGen.labSweepCell inp analysis ty mode day)
      (guarded_labSweepCell inp analysis ty mode day)
      (AIGen.getLabSlotsForYear inp.constraints ty) acc)
    AIGen.DAYS (st, pool)

theorem guarded_lecturesAICell (inp : GenInput) (ty : Year) (cls : Classroom) (day : String)
    (acc : GenState × List UnscheduledLecture × List UnscheduledLecture) (time : String) :
    AIGen.Guarded inp.subjects acc.1.slots
      ((AIGen.lecturesAICell inp ty cls day acc time).1.slots) := by
  obtain ⟨st, pool, sortedPool⟩ := acc
  unfold AIGen.lecturesAICell
  dsimp only
  repeat' (first | split | dsimp only)
  all_goals try exact .refl _
  all_goals (rename_i hv; exact .push _ (.refl _) hv)

theorem guarded_scheduleLecturesWithAI (inp : GenInput) (analysis : Option AnalysisResult)
    (st : GenState) (pool : List UnscheduledLecture) (ty : Year) (rooms : List Classroom) :
    AIGen.Guarded inp.subjects st.slots
      ((AIGen.scheduleLecturesWithAI inp analysis st pool ty rooms).1.slots) := by
  unfold AIGen.scheduleLecturesWithAI
  dsimp only
  split
  · exact .refl _
  · dsimp only
    rename_i cls heq
    exact guarded_foldl inp.subjects (fun a => a.1.slots)
      (fun acc day => List.foldl (AIGen.lecturesAICell inp ty cls day) acc
        (if AIGen.getBatchTypeForYear inp.constraints ty = BatchTime.Morning then
          AIGen.MORNING_THEORY_SLOTS else AIGen.AFTERNOON_THEORY_SLOTS))
      (fun acc day => guarded_foldl inp.subjects (fun a => a.1.slots)
        (AIGen.lecturesAICell inp ty cls day)
        (guarded_lecturesAICell inp ty cls day)
        (if AIGen.getBatchTypeForYear inp.constraints ty = BatchTime.Morning then
          AIGen.MORNING_THEORY_SLOTS else AIGen.AFTERNOON_THEORY_SLOTS) acc)
      AIGen.DAYS (st, pool, AIGen.sortLecturePool analysis pool)

theorem guarded_fillCell (inp : GenInput) (ty : Year) (cls : Classroom) (day : String)
    (acc : GenState × List UnscheduledLecture) (time : String) :
    AIGen.Guarded inp.subjects acc.1.slots
      ((AIGen.fillCell inp ty cls day acc time).1.slots) := by
  obtain ⟨st, pool⟩ := acc
  unfold AIGen.fillCell
  dsimp only
  repeat' (first | split | dsimp only)
  all_goals try exact .refl _
  all_goals (rename_i hv; exact .push _ (.refl _) hv)

theorem guarded_fillRemainingLectureSlots (inp : GenInput) (st : GenState)
    (pool : List UnscheduledLecture) (ty : Year) (rooms : List Classroom) :
    AIGen.Guarded inp.subjects st.slots
      ((AIGen.fillRemainingLectureSlots inp st pool ty rooms).1.slots) := by
  unfold AIGen.fillRemainingLectureSlots
  split
  · exact .refl _
  · split
    · exact .refl _
    · rename_i cls heq
      exact guarded_foldl inp.subjects (fun a => a.1.slots)
        (fun acc day => List.foldl (AIGen.fillCell inp ty cls day) acc AIGen.ALL_THEORY_SLOTS)
        (fun acc day => guarded_foldl inp.subjects (fun a => a.1.slots)
          (AIGen.fillCell inp ty cls day)
          (guarded_fillCell inp ty cls day)
          AIGen.ALL_THEORY_SLOTS acc)
        AIGen.DAYS (st, pool)

theorem guarded_lecturesFallbackCell (inp : GenInput) (ty : Year) (cls : Classroom)
    (day : String) (acc : GenState × List UnscheduledLecture) (time : String) :
    AIGen.Guarded inp.subjects acc.1.slots
      ((AIGen.lecturesFallbackCell inp ty cls day acc time).1.slots) := by
  obtain ⟨st, pool⟩ := acc
  unfold AIGen.lecturesFallbackCell
  dsimp only
  repeat' (first | split | dsimp only)
  all_goals try exact .refl _
  all_goals (rename_i hv; exact .push _ (.refl _) hv)

theorem guarded_scheduleLecturesFallback (inp : GenInput) (st : GenState)
    (pool : List UnscheduledLecture) (ty : Year) (rooms : List Classroom) :
    AIGen.Guarded inp.subjects st.slots
      ((AIGen.scheduleLecturesFallback inp st pool ty rooms).1.slots) := by
  unfold AIGen.scheduleLecturesFallback
  dsimp only
  split
  · exact .refl _
  · rename_i cls heq
    exact guarded_foldl inp.subjects (fun a => a.1.slots)
      (fun acc day => List.foldl (AIGen.lecturesFallbackCell inp ty cls day) acc
        (if AIGen.getBatchTypeForYear inp.constraints ty = BatchTime.Morning then
          AIGen.MORNING_THEORY_SLOTS else AIGen.AFTERNOON_THEORY_SLOTS))
      (fun acc day => guarded_foldl inp.subjects (fun a => a.1.slots)
        (AIGen.lecturesFallbackCell inp ty cls day)
        (guarded_lecturesFallbackCell inp ty cls day)
        (if AIGen.getBatchTypeForYear inp.constraints ty = BatchTime.Morning then
          AIGen.MORNING_THEORY_SLOTS else AIGen.AFTERNOON_THEORY_SLOTS) acc)
      AIGen.DAYS (st, pool)

theorem guarded_generateSlotsWithAI (inp : GenInput) (analysis : AnalysisResult)
    (st : GenState) (ty : Year) (ts : Nat) :
    AIGen.Guarded inp.subjects st.slots
      ((AIGen.generateSlotsWithAI inp analysis st ty ts).slots) := by
  unfold AIGen.generateSlotsWithAI
  dsimp only
  exact guarded_trans
    (guarded_foldl inp.subjects (fun a : GenState => a.slots)
      (AIGen.applyRecommendation inp (relevantSubjects inp.subjects ty ts) ty ts)
      (guarded_applyRecommendation inp (relevantSubjects inp.subjects ty ts) ty ts)
      analysis.recommendedSlots st)
    (guarded_trans (guarded_scheduleLabsConcurrently inp (some analysis) _ _ ty .ai)
      (guarded_trans (guarded_scheduleLecturesWithAI inp (some analysis) _ _ ty _)
        (guarded_fillRemainingLectureSlots inp _ _ ty _)))

/-- Every slot list a completed generation run returns was built by the
guarded-insertion discipline starting from the empty list (the data-fault
branches return the empty list, trivially guarded). -/
theorem run_slots_guarded (inp : GenInput) (advisory : Except Unit AnalysisResult) (now : Nat)
    (ty : Year) (ts : Nat) :
    AIGen.Guarded inp.subjects []
      ((AIGen.generateTimetable inp advisory now ty ts).slots) := by
  cases advisory with
  | ok analysis => exact guarded_generateSlotsWithAI inp analysis emptyState ty ts
  | error e =>
      show AIGen.Guarded inp.subjects []
        ((AIGen.fallbackGeneration inp emptyState now ty ts).slots)
      unfold AIGen.fallbackGeneration
      dsimp only
      split
      · exact .refl _
      · exact guarded_trans
          (guarded_scheduleLabsConcurrently inp none emptyState _ ty .fallback)
          (guarded_trans (guarded_scheduleLecturesFallback inp _ _ ty _)
            (guarded_fillRemainingLectureSlots inp _ _ ty _))

/-- C1 counterexample: a completed run of the plain fallback generator on
`plainDoubleBookInput` books the same faculty into two rooms at the same
day and time, violating the claimed invariant. -/
theorem plain_generator_double_books :
    conflictFreeB (Plain.generateTimetable plainDoubleBookInput).slots = false := by
  set_option maxRecDepth 4000 in decide

/-- C2 counterexample: for a subject declared with `theoryHours = 0`,
`validateSlot` accepts a theory candidate whose acceptance raises the weekly
count to 1 > 0 — the JS `|| 3` default overrides the declared 0. -/
theorem zero_hour_subject_cap_violation :
    oneLabSubject.theoryHours = 0 ∧
    zeroHourTheorySlot.type = SlotType.theory ∧
    zeroHourTheorySlot.subject = oneLabSubject.name ∧
    zeroHourTheorySlot.year = oneLabSubject.year ∧
    AIGen.validateSlot [oneLabSubject] [] zeroHourTheorySlot = true ∧
    AIGen.theoryCountFor [zeroHourTheorySlot] oneLabSubject.name oneLabSubject.year = 1 := by
  decide

/-- C1 (amended): every slot list returned by a completed run of the AI
generator — any advisory outcome, either internal path — is free of
double-bookings: no two accepted slots share faculty, room, or cohort-year
with equal-or-absent batches at overlapping times on the same day. -/
theorem ai_generator_conflict_free (inp : GenInput) (advisory : Except Unit AnalysisResult)
    (now : Nat) (ty : Year) (ts : Nat) :
    conflictFreeB ((AIGen.generateTimetable inp advisory now ty ts).slots) = true :=
  guarded_conflictFree (run_slots_guarded inp advisory now ty ts) rfl

theorem theoryCountFor_append (m : List Slot) (s : Slot) (n : String) (y : Year) :
    AIGen.theoryCountFor (m ++ [s]) n y =
      AIGen.theoryCountFor m n y +
        (if s.type == SlotType.theory && s.subject == n && s.year == y then 1 else 0) := by
  unfold AIGen.theoryCountFor
  rw [List.filter_append, List.length_append]
  congr 1
  by_cases hp : (s.type == SlotType.theory && s.subject == n && s.year == y) = true <;>
    simp [List.filter, hp]

/-- A theory slot accepted by `validateSlot` had not yet reached the
applicable weekly cap. -/
theorem validateSlot_theory_bound {subjects : List Subject} {m : List Slot} {s : Slot}
    (h : AIGen.validateSlot subjects m s = true) (hty : s.type = SlotType.theory) :
    AIGen.theoryCountFor m s.subject s.year <
      AIGen.maxAllowedFor subjects s.subject s.year := by
  by_contra hnot
  have hle := Nat.le_of_not_lt hnot
  rw [AIGen.validateSlot, hty] at h
  simp only [show (SlotType.theory == SlotType.theory) = true from rfl,
    show (SlotType.theory == SlotType.lab) = false from rfl, Bool.true_and, Bool.false_and,
    decide_eq_true hle, if_true, if_false, ite_self] at h
  exact Bool.false_ne_true h

theorem maxAllowedFor_of_find {subjects : List Subject} {subj : Subject} {n : String}
    {y : Year}
    (hfind : subjects.find? (fun q => q.name == n && q.year == y) = some subj)
    (h0 : subj.theoryHours ≠ 0) :
    AIGen.maxAllowedFor subjects n y = subj.theoryHours := by
  unfold AIGen.maxAllowedFor
  rw [hfind]
  simp [h0]

/-- The weekly theory cap as an invariant of every guarded construction
state, for subjects declaring a positive requirement. -/
theorem guarded_theory_cap {subjects : List Subject} {m : List Slot}
    (h : AIGen.Guarded subjects [] m) (subj : Subject)
    (hfind : subjects.find? (fun q => q.name == subj.name && q.year == subj.year) = some subj)
    (hpos : 0 < subj.theoryHours) :
    AIGen.theoryCountFor m subj.name subj.year ≤ subj.theoryHours := by
  induction h with
  | refl => simp [AIGen.theoryCountFor]
  | push s hg hv ih =>
      rw [theoryCountFor_append]
      by_cases hmatch :
          (s.type == SlotType.theory && s.subject == subj.name && s.year == subj.year) = true
      · rw [if_pos hmatch]
        simp only [Bool.and_eq_true, beq_iff_eq] at hmatch
        obtain ⟨⟨h1, h2⟩, h3⟩ := hmatch
        have hb := validateSlot_theory_bound hv h1
        rw [h2, h3, maxAllowedFor_of_find hfind (Nat.pos_iff_ne_zero.mp hpos)] at hb
        omega
      · rw [if_neg hmatch]
        simpa using ih

/-- C2 (amended): for every subject declaring a *positive* `theoryHours = H`
and found by the weekly-cap lookup, the count of accepted theory slots never
exceeds `H` — at every guarded construction state and in every completed
run.  (For `theoryHours = 0` the cap is the default 3 instead; see C10.) -/
theorem weekly_theory_cap :
    (∀ (subjects : List Subject) (m : List Slot), AIGen.Guarded subjects [] m →
      ∀ subj : Subject,
        subjects.find? (fun q => q.name == subj.name && q.year == subj.year) = some subj →
        0 < subj.theoryHours →
        AIGen.theoryCountFor m subj.name subj.year ≤ subj.theoryHours) ∧
    (∀ (inp : GenInput) (advisory : Except Unit AnalysisResult) (now : Nat) (ty : Year)
        (ts : Nat) (subj : Subject),
        inp.subjects.find? (fun q => q.name == subj.name && q.year == subj.year) = some subj →
        0 < subj.theoryHours →
        AIGen.theoryCountFor ((AIGen.generateTimetable inp advisory now ty ts).slots)
          subj.name subj.year ≤ subj.theoryHours) :=
  ⟨fun _ _ h subj hf hp => guarded_theory_cap h subj hf hp,
   fun inp advisory now ty ts subj hf hp =>
     guarded_theory_cap (run_slots_guarded inp advisory now ty ts) subj hf hp⟩

/-- Witness for C2 (amended) at a concrete guarded state holding one
accepted lecture of a subject with `theoryHours = 3`. -/
theorem weekly_theory_cap_witness :
    AIGen.theoryCountFor [theoryCOASlot] theorySubject.name theorySubject.year ≤
      theorySubject.theoryHours :=
  weekly_theory_cap.1 [theorySubject] ([] ++ [theoryCOASlot])
    (.push _ (.refl _) (by decide)) theorySubject (by decide) (by decide)

/-- C7 counterexample: with zero classrooms but a schedulable lab, the AI
path (advisory step resolving to its internal fallback analysis) returns a
non-empty slot list instead of terminating with an empty one. -/
theorem ai_path_schedules_despite_no_classrooms :
    noClassroomInput.classrooms = [] ∧
    (AIGen.generateTimetable noClassroomInput (.ok noClassroomAdvisory) 0 .SE 3).slots ≠ [] := by
  refine ⟨rfl, by decide⟩

/-- C8 counterexample: two runs differing only in the clock reading take the
empty-result path and produce different consistency hashes, because
`createEmptyResult` embeds `Date.now()` in the hash. -/
theorem empty_result_hash_time_dependent :
    (AIGen.generateTimetable noClassroomInput (.error ()) 0 .SE
      3).generationStats.consistencyHash ≠
    (AIGen.generateTimetable noClassroomInput (.error ()) 1 .SE
      3).generationStats.consistencyHash := by decide

/-- C7 (amended): on the fallback path (taken when the advisory step
rejects), zero classrooms for the target year terminates the run with an
empty slot list and a high-severity error conflict naming the missing
classrooms.  (The AI path can still schedule labs; see the counterexample.) -/
theorem fallback_no_classrooms (inp : GenInput) (now : Nat) (ty : Year) (ts : Nat)
    (h : inp.classrooms.filter (fun c => c.assignedYear == ty) = []) :
    (AIGen.generateTimetable inp (.error ()) now ty ts).slots = [] ∧
    mkConflict .error ("No classrooms for " ++ ty.str) .high [] ∈
      (AIGen.generateTimetable inp (.error ()) now ty ts).conflicts := by
  show (AIGen.fallbackGeneration inp emptyState now ty ts).slots = [] ∧
    _ ∈ (AIGen.fallbackGeneration inp emptyState now ty ts).conflicts
  unfold AIGen.fallbackGeneration
  dsimp only
  rw [h]
  simp only [List.isEmpty_nil, Bool.or_true, if_true]
  refine ⟨rfl, ?_⟩
  split
  · exact List.mem_append_right _ (List.mem_singleton.mpr rfl)
  · exact List.mem_append_right _ (List.mem_singleton.mpr rfl)

/-- Witness for C7 (amended) at the concrete zero-classroom input. -/
theorem fallback_no_classrooms_witness :
    (AIGen.generateTimetable noClassroomInput (.error ()) 0 .SE 3).slots = [] ∧
    mkConflict .error ("No classrooms for " ++ Year.SE.str) .high [] ∈
      (AIGen.generateTimetable noClassroomInput (.error ()) 0 .SE 3).conflicts :=
  fallback_no_classrooms noClassroomInput 0 .SE 3 (by decide)

/-- C8 (amended): two runs on identical inputs and identical advisory
outcome produce identical slot lists, and identical consistency hashes
except on the empty-result error path, whose hash embeds each run's own
clock reading. -/
theorem fallbackGeneration_now_dependence (inp : GenInput) (ty : Year) (ts : Nat)
    (now1 now2 : Nat) :
    (AIGen.fallbackGeneration inp emptyState now1 ty ts).slots =
      (AIGen.fallbackGeneration inp emptyState now2 ty ts).slots ∧
    ((AIGen.fallbackGeneration inp emptyState now1 ty ts).generationStats.consistencyHash =
        (AIGen.fallbackGeneration inp emptyState now2 ty ts).generationStats.consistencyHash ∨
      ((AIGen.fallbackGeneration inp emptyState now1 ty ts).generationStats.consistencyHash =
          "error-" ++ toString now1 ∧
        (AIGen.fallbackGeneration inp emptyState now2 ty ts).generationStats.consistencyHash =
          "error-" ++ toString now2)) := by
  unfold AIGen.fallbackGeneration
  dsimp only
  cases hcond : ((relevantSubjects inp.subjects ty ts).isEmpty ||
      (inp.classrooms.filter fun c => c.assignedYear == ty).isEmpty) with
  | true => exact ⟨rfl, Or.inr ⟨rfl, rfl⟩⟩
  | false => exact ⟨rfl, Or.inl rfl⟩

theorem generation_hash_deterministic (inp : GenInput)
    (advisory : Except Unit AnalysisResult) (ty : Year) (ts : Nat) (now1 now2 : Nat) :
    (AIGen.generateTimetable inp advisory now1 ty ts).slots =
      (AIGen.generateTimetable inp advisory now2 ty ts).slots ∧
    ((AIGen.generateTimetable inp advisory now1 ty ts).generationStats.consistencyHash =
        (AIGen.generateTimetable inp advisory now2 ty ts).generationStats.consistencyHash ∨
      ((AIGen.generateTimetable inp advisory now1 ty ts).generationStats.consistencyHash =
          "error-" ++ toString now1 ∧
        (AIGen.generateTimetable inp advisory now2 ty ts).generationStats.consistencyHash =
          "error-" ++ toString now2)) := by
  cases advisory with
  | ok analysis => exact ⟨rfl, Or.inl rfl⟩
  | error e => exact fallbackGeneration_now_dependence inp ty ts now1 now2

/-! ### Optimizer frame lemmas (C9) -/

theorem applySwap_length (slots : List Slot) (i j : Nat) :
    (AIGen.applySwap slots i j).length = slots.length := by
  unfold AIGen.applySwap
  split
  · simp [List.length_set]
  · rfl

theorem applySwap_frame (slots : List Slot) (i j k : Nat) :
    ((AIGen.applySwap slots i j).get? k).map gridFields = (slots.get? k).map gridFields := by
  unfold AIGen.applySwap
  split
  · rename_i a b ha hb
    rw [List.get?_set, List.get?_set]
    by_cases hjk : j = k
    · rw [if_pos hjk]
      subst hjk
      rw [hb]
      by_cases hik : i = j <;> simp [hik, gridFields]
    · rw [if_neg hjk]
      by_cases hik : i = k
      · rw [if_pos hik]
        subst hik
        rw [ha]
        simp [gridFields]
      · rw [if_neg hik]
  · rfl

theorem optimizeLoop_length (ty : Year) :
    ∀ (fuel : Nat) (slots : List Slot),
      (AIGen.optimizeLoop ty fuel slots).length = slots.length := by
  intro fuel
  induction fuel with
  | zero => intro slots; rfl
  | succ n ih =>
      intro slots
      unfold AIGen.optimizeLoop
      split
      · rfl
      · rw [ih, applySwap_length]

theorem optimizeLoop_frame (ty : Year) :
    ∀ (fuel : Nat) (slots : List Slot) (k : Nat),
      ((AIGen.optimizeLoop ty fuel slots).get? k).map gridFields =
        (slots.get? k).map gridFields := by
  intro fuel
  induction fuel with
  | zero => intro slots k; rfl
  | succ n ih =>
      intro slots k
      unfold AIGen.optimizeLoop
      split
      · rfl
      · rw [ih, applySwap_frame]

/-- C9: the post-hoc optimizer preserves every slot's day, time, room,
kind, cohort-year, batch and duration (swaps touch only subject, faculty
and semester), keeps the list length, and returns the input unchanged as
soon as no legal swap exists. -/
theorem optimizer_frame (slots : List Slot) (ty : Year) :
    (AIGen.optimizeDistribution slots ty).length = slots.length ∧
    (∀ k : Nat, ((AIGen.optimizeDistribution slots ty).get? k).map gridFields =
      (slots.get? k).map gridFields) ∧
    (AIGen.findSwap slots ty = none → AIGen.optimizeDistribution slots ty = slots) := by
  refine ⟨optimizeLoop_length ty 20 slots, fun k => optimizeLoop_frame ty 20 slots k, ?_⟩
  intro hnone
  unfold AIGen.optimizeDistribution AIGen.optimizeLoop
  rw [hnone]

/-- Witness for C9 on the empty schedule, where no swap exists. -/
theorem optimizer_frame_witness :
    AIGen.findSwap [] Year.SE = none ∧ AIGen.optimizeDistribution [] Year.SE = [] :=
  ⟨by decide, (optimizer_frame [] .SE).2.2 (by decide)⟩

/-- C4 counterexample: two distinct slots sharing faculty and day with
overlapping but unequal time strings — flagged by the claim's
overlap-based hard rules, yet `validateTimetable` reports the schedule
valid because the implemented hard rules compare time strings for equality. -/
theorem hard_rules_ignore_overlap :
    Solver.specOverlapHardConflict [overlapSlotA, overlapSlotB] = true ∧
    (Solver.validateTimetable [overlapSlotA, overlapSlotB] overlapCtx).isValid = true := by
  decide

namespace Solver

theorem applyRule_hard_count (ctx : Ctx) (slots : List Slot) (acc : VAcc) (slot : Slot)
    (rule : Rule) :
    (applyRule ctx slots acc slot rule).hardConstraintViolations =
      acc.hardConstraintViolations +
        (if rule.kind == RuleKind.hard && !(rule.validate slot slots ctx) then 1 else 0) := by
  unfold applyRule
  cases hk : rule.kind <;> cases hv : rule.validate slot slots ctx <;> simp [hk, hv]

theorem applyRule_score_eq (ctx : Ctx) (slots : List Slot) (acc : VAcc) (slot : Slot)
    (rule : Rule) :
    (applyRule ctx slots acc slot rule).score =
      acc.score + (if rule.kind == RuleKind.soft then
        (if rule.validate slot slots ctx then rule.weight else -rule.weight) else 0) := by
  unfold applyRule
  cases hk : rule.kind <;> cases hv : rule.validate slot slots ctx <;>
    simp [hk, hv, Int.sub_eq_add_neg]

theorem foldlRules_hard_count (ctx : Ctx) (slots : List Slot) (slot : Slot)
    (rs : List Rule) : ∀ acc : VAcc,
    (rs.foldl (fun a r => applyRule ctx slots a slot r) acc).hardConstraintViolations =
      acc.hardConstraintViolations +
        (rs.filter fun r => r.kind == RuleKind.hard && !(r.validate slot slots ctx)).length := by
  induction rs with
  | nil => intro acc; simp
  | cons r rs ih =>
      intro acc
      rw [List.foldl_cons, ih, applyRule_hard_count]
      by_cases h : (r.kind == RuleKind.hard && !(r.validate slot slots ctx)) = true
      · simp [List.filter_cons, h]; omega
      · simp [List.filter_cons, h]

theorem foldlRules_score (ctx : Ctx) (slots : List Slot) (slot : Slot)
    (rs : List Rule) : ∀ acc : VAcc,
    (rs.foldl (fun a r => applyRule ctx slots a slot r) acc).score =
      acc.score + ((rs.filter fun r => r.kind == RuleKind.soft).map fun r =>
        if r.validate slot slots ctx then r.weight else -r.weight).sum := by
  induction rs with
  | nil => intro acc; simp
  | cons r rs ih =>
      intro acc
      rw [List.foldl_cons, ih, applyRule_score_eq]
      by_cases h : (r.kind == RuleKind.soft) = true
      · simp [List.filter_cons, h]; omega
      · simp [List.filter_cons, h]

theorem foldlSlots_hard_count (ctx : Ctx) (slots : List Slot)
    (ss : List Slot) : ∀ acc : VAcc,
    (ss.foldl (fun a slot => defaultRules.foldl (fun a r => applyRule ctx slots a slot r) a)
        acc).hardConstraintViolations =
      acc.hardConstraintViolations + (ss.map fun s => slotHardFailCount slots ctx s).sum := by
  induction ss with
  | nil => intro acc; simp
  | cons s ss ih =>
      intro acc
      rw [List.foldl_cons, ih, foldlRules_hard_count]
      simp [slotHardFailCount]
      omega

theorem foldlSlots_score (ctx : Ctx) (slots : List Slot)
    (ss : List Slot) : ∀ acc : VAcc,
    (ss.foldl (fun a slot => defaultRules.foldl (fun a r => applyRule ctx slots a slot r) a)
        acc).score =
      acc.score + (ss.map fun s => slotSoftScore slots ctx s).sum := by
  induction ss with
  | nil => intro acc; simp
  | cons s ss ih =>
      intro acc
      rw [List.foldl_cons, ih, foldlRules_score]
      simp [slotSoftScore]
      omega

theorem validateTimetable_hard_iff (slots : List Slot) (ctx : Ctx) :
    (validateTimetable slots ctx).isValid = false ↔
      ∃ s ∈ slots, slotHardFailCount slots ctx s ≠ 0 := by
  unfold validateTimetable
  dsimp only
  rw [foldlSlots_hard_count]
  simp [List.sum_eq_zero_iff]

theorem validateTimetable_score_eq (slots : List Slot) (ctx : Ctx) :
    (validateTimetable slots ctx).score =
      (slots.map fun s => slotSoftScore slots ctx s).sum := by
  unfold validateTimetable
  dsimp only
  rw [foldlSlots_score]
  simp

theorem slotHardFailCount_ne_zero_iff (slots : List Slot) (ctx : Ctx) (s : Slot) :
    slotHardFailCount slots ctx s ≠ 0 ↔
      ∃ e ∈ slots, e.id ≠ s.id ∧ e.day = s.day ∧ e.time = s.time ∧
        (e.faculty = s.faculty ∨ e.room = s.room ∨ (e.year = s.year ∧ e.batch = s.batch)) := by
  have hiff : slotHardFailCount slots ctx s ≠ 0 ↔
      ∃ r ∈ defaultRules, (r.kind == RuleKind.hard && !(r.validate s slots ctx)) = true := by
    unfold slotHardFailCount
    constructor
    · intro h
      have hne : (defaultRules.filter fun r =>
          r.kind == RuleKind.hard && !(r.validate s slots ctx)) ≠ [] :=
        fun hnil => h (by rw [hnil]; rfl)
      obtain ⟨r, hr⟩ := List.exists_mem_of_ne_nil _ hne
      obtain ⟨hmem, hp⟩ := List.mem_filter.mp hr
      exact ⟨r, hmem, hp⟩
    · rintro ⟨r, hmem, hp⟩
      have hin : r ∈ defaultRules.filter fun r =>
          r.kind == RuleKind.hard && !(r.validate s slots ctx) :=
        List.mem_filter.mpr ⟨hmem, hp⟩
      intro h0
      rw [List.length_eq_zero] at h0
      rw [h0] at hin
      exact absurd hin (List.not_mem_nil r)
  rw [hiff]
  constructor
  · rintro ⟨r, hmem, hp⟩
    simp only [defaultRules, List.mem_cons, List.not_mem_nil, or_false] at hmem
    rcases hmem with rfl | rfl | rfl | rfl | rfl | rfl | rfl
    · simp [noFacultyConflictRule, noFacultyConflictValidate, List.any_eq_true] at hp
      obtain ⟨e, he, ⟨⟨hf, hday⟩, htime⟩, hid⟩ := hp
      exact ⟨e, he, hid, hday, htime, Or.inl hf⟩
    · simp [noRoomConflictRule, noRoomConflictValidate, List.any_eq_true] at hp
      obtain ⟨e, he, ⟨⟨hroom, hday⟩, htime⟩, hid⟩ := hp
      exact ⟨e, he, hid, hday, htime, Or.inr (Or.inl hroom)⟩
    · simp [noStudentConflictRule, noStudentConflictValidate, List.any_eq_true] at hp
      obtain ⟨e, he, ⟨⟨⟨hy, hb⟩, hday⟩, htime⟩, hid⟩ := hp
      exact ⟨e, he, hid, hday, htime, Or.inr (Or.inr ⟨hy, hb⟩)⟩
    · simp [facultyMaxHoursRule] at hp
    · simp [noBackToBackLabsRule] at hp
    · simp [labAfternoonRule] at hp
    · simp [facultyPreferredRule] at hp
  · rintro ⟨e, he, hid, hday, htime, hshare⟩
    rcases hshare with hf | hroom | ⟨hy, hb⟩
    · refine ⟨noFacultyConflictRule, by simp [defaultRules], ?_⟩
      simp [noFacultyConflictRule, noFacultyConflictValidate, List.any_eq_true]
      exact ⟨e, he, ⟨⟨hf, hday⟩, htime⟩, hid⟩
    · refine ⟨noRoomConflictRule, by simp [defaultRules], ?_⟩
      simp [noRoomConflictRule, noRoomConflictValidate, List.any_eq_true]
      exact ⟨e, he, ⟨⟨hroom, hday⟩, htime⟩, hid⟩
    · refine ⟨noStudentConflictRule, by simp [defaultRules], ?_⟩
      simp [noStudentConflictRule, noStudentConflictValidate, List.any_eq_true]
      exact ⟨e, he, ⟨⟨⟨hy, hb⟩, hday⟩, htime⟩, hid⟩

end Solver

/-- C4 (amended): `validateTimetable(slots, context)` returns
`isValid = false` iff at least one slot fails at least one hard rule, and
returns `score` equal to the sum over every slot of its signed soft-rule
contribution (`+weight` per passing soft rule, `-weight` per failing one);
however the three hard rules flag two distinct accepted slots sharing
faculty, room, or (cohort-year, batch) on the same day with the *identical
time string* — string equality, not the claimed overlap test. -/
theorem validateTimetable_spec (slots : List Slot) (ctx : Solver.Ctx) :
    ((Solver.validateTimetable slots ctx).isValid = false ↔
      ∃ s ∈ slots, ∃ e ∈ slots, e.id ≠ s.id ∧ e.day = s.day ∧ e.time = s.time ∧
        (e.faculty = s.faculty ∨ e.room = s.room ∨
          (e.year = s.year ∧ e.batch = s.batch))) ∧
    (Solver.validateTimetable slots ctx).score =
      (slots.map fun s => Solver.slotSoftScore slots ctx s).sum := by
  refine ⟨?_, Solver.validateTimetable_score_eq slots ctx⟩
  rw [Solver.validateTimetable_hard_iff]
  exact exists_congr fun s => and_congr_right fun _ =>
    Solver.slotHardFailCount_ne_zero_iff slots ctx s

end Timetable
